import Mathlib

/-!
Volatile regions of the buffer pool: a shallow embedding of `src/lib/storage/buffer/volatile_region.cpp`.

The header `volatile_region.hpp` and `types.hpp` are not part of the sources, so the
constants, build flags and small value types they declare are parameters (`Env`) or are
modelled from the specification where the doc comment says so.

Conventions of the embedding:
* a pointer is a natural number (an address); `get_page` computes its 64-bit address with
  the wrap-around of unsigned arithmetic, and a pointer difference converts to `size_t` as
  in `ptrdiff_to_size_t`; offsets inside a mapping or a buffer are added without wrap-around;
* page indexes, byte sizes and node ids are natural numbers; the two statistics counters
  are natural numbers;
* an operation returns `Except Error _`: a failed `DebugAssert`/`Assert`, a `Fail` after
  a failed OS call, an access to memory that is `PROT_NONE`, and an access outside an
  array, and a division by zero are the ways a call does not return normally;
* the memory behind the pointers, the outcome of OS calls and the calling thread's
  `thread_local` variables form the `World` that every operation threads through.
-/

namespace hyrise

/-- Ways in which a call does not return normally. -/
inductive Error where
  /-- A `DebugAssert` or `Assert` failed. -/
  | assertion_failed
  /-- An OS call reported an error and the code called `Fail`. -/
  | os_call_failed
  /-- A load or store hit memory whose protection is `PROT_NONE`. -/
  | segmentation_fault
  /-- A load or store outside the bounds of an array or buffer (undefined behaviour). -/
  | out_of_bounds
  /-- An integer division by zero (undefined behaviour). -/
  | division_by_zero
  deriving DecidableEq, Repr

/-- The ordinal of a `PageSizeType` enumerator (`magic_enum::enum_value<PageSizeType>(i)`
is the enumerator with ordinal `i`). -/
abbrev PageSizeType := Nat

/-- A NUMA node id. -/
abbrev NodeID := Nat

/-- Constants and build flags declared in headers that are not part of the sources. -/
structure Env where
  /-- Number of enumerators of `PageSizeType`. -/
  PAGE_SIZE_TYPES_COUNT : Nat
  /-- Byte size of a page of the given size class. -/
  bytes_for_size_type : PageSizeType → Nat
  /-- The largest size class. -/
  MAX_PAGE_SIZE_TYPE : PageSizeType
  /-- Value of `VolatileRegion::DEFAULT_RESERVED_VIRTUAL_MEMORY`. -/
  DEFAULT_RESERVED_VIRTUAL_MEMORY : Nat
  /-- The page size of the operating system. -/
  OS_PAGE_SIZE : Nat
  /-- The sentinel of an unset node id. -/
  INVALID_NODE_ID : NodeID
  /-- Whether `DebugAssert` is compiled in. -/
  HYRISE_DEBUG : Bool
  /-- Whether the code under `#if HYRISE_NUMA_SUPPORT` is compiled in. -/
  HYRISE_NUMA_SUPPORT : Bool
  /-- Whether the `if constexpr (ENABLE_MPROTECT)` branches are compiled in. -/
  ENABLE_MPROTECT : Bool

/-- Modelled from the spec: `PageID` is declared in a header that is not part of the
sources; the specification gives it as the pair of a size class and an unsigned index. -/
structure PageID where
  size_type : PageSizeType
  index : Nat
  deriving DecidableEq, Repr

/-- Modelled from the spec: `PageID::byte_count` is declared in a header that is not part
of the sources; a slot of a size class has `bytes_for_size_type` bytes. -/
def PageID.byte_count (env : Env) (page_id : PageID) : Nat :=
  env.bytes_for_size_type page_id.size_type

/-- Modelled from the spec: `Frame` is declared in a header that is not part of the
sources; the specification gives it as the per-slot record of the NUMA node that hosts the
slot, or the unset sentinel. -/
structure Frame where
  node_id : NodeID
  deriving DecidableEq, Repr

/-- Modelled from the spec: `Frame::set_node_id` records the node. -/
def Frame.set_node_id (_frame : Frame) (node : NodeID) : Frame :=
  { node_id := node }

/-- The data members of `VolatileRegion`. -/
structure VolatileRegion where
  _size_type : PageSizeType
  _region_start : Nat
  _region_end : Nat
  _frames : List Frame
  _madvice_free_call_count : Nat
  _numa_page_movement_count : Nat
  deriving DecidableEq, Repr

/-- The memory behind the pointers, the outcome of OS calls, and the `thread_local`
variables of the calling thread. -/
structure World where
  /-- The byte stored at an address. -/
  memory : Nat → Nat
  /-- Whether the address is readable and writable (`false` is `PROT_NONE`). -/
  accessible : Nat → Bool
  /-- Whether `mprotect` calls succeed. -/
  mprotect_ok : Bool
  /-- Whether `madvise` calls succeed. -/
  madvise_ok : Bool
  /-- Whether `mbind` calls succeed. -/
  mbind_ok : Bool
  /-- Whether `move_pages` calls succeed. -/
  move_pages_ok : Bool
  /-- Contents of `intermediate_buffer` of `memcopy_page_to_numa_node`, by offset. -/
  intermediate_buffer : Nat → Nat
  /-- The vector `pages_to_move` of `move_page_to_numa_node`; `none` before the first call
  on this thread. -/
  pages_to_move : Option (List Nat)
  /-- The vector `nodes` of `move_page_to_numa_node`. -/
  nodes : Option (List Nat)
  /-- The vector `status` of `move_page_to_numa_node`. -/
  status : Option (List Nat)

/-- The macro `DebugAssert`: checked only when `HYRISE_DEBUG` is set. -/
def DebugAssert (env : Env) (cond : Bool) : Except Error Unit :=
  if env.HYRISE_DEBUG && !cond then .error .assertion_failed else .ok ()

/-- The value of the `ptrdiff_t` difference `hi - lo` of two pointers after its conversion
to `size_t`: the distance when `lo ≤ hi`, and the negative difference plus `2 ^ 64`
otherwise. -/
def ptrdiff_to_size_t (hi lo : Nat) : Nat :=
  if lo ≤ hi then hi - lo else 18446744073709551616 - (lo - hi)

/-- The OS call `mprotect(addr, len, prot)` together with the caller's `Fail` on error:
sets the protection of `[addr, addr + len)`. -/
def mprotect (w : World) (addr len : Nat) (prot : Bool) : Except Error World :=
  if w.mprotect_ok then
    .ok { w with accessible := fun a => if addr ≤ a ∧ a < addr + len then prot else w.accessible a }
  else .error .os_call_failed

/-- The OS call `madvise(addr, len, MADV_DONTNEED)` (or `MADV_FREE_REUSABLE`) together with
the caller's `Fail` on error: the physical backing of `[addr, addr + len)` is dropped, so
the bytes read as zero afterwards. -/
def madvise (w : World) (addr len : Nat) : Except Error World :=
  if w.madvise_ok then
    .ok { w with memory := fun a => if addr ≤ a ∧ a < addr + len then 0 else w.memory a }
  else .error .os_call_failed

/-- Whether all bytes in `[addr, addr + len)` are readable and writable. -/
def range_accessible (w : World) (addr len : Nat) : Bool :=
  (List.range len).all (fun k => w.accessible (addr + k))

/-- The method `VolatileRegion::size`. -/
def VolatileRegion.size (r : VolatileRegion) : Nat :=
  r._frames.length

/-- The method `VolatileRegion::size_type`. -/
def VolatileRegion.size_type (r : VolatileRegion) : PageSizeType :=
  r._size_type

/-- The method `VolatileRegion::madvice_free_call_count`. -/
def VolatileRegion.madvice_free_call_count (r : VolatileRegion) : Nat :=
  r._madvice_free_call_count

/-- The method `VolatileRegion::numa_page_movement_count`. -/
def VolatileRegion.numa_page_movement_count (r : VolatileRegion) : Nat :=
  r._numa_page_movement_count

/-- The constructor `VolatileRegion::VolatileRegion`. The member initialisers run first
(the frame vector gets one value-initialised frame per slot), then the two assertions,
then the `mprotect` of the whole interval. -/
def VolatileRegion.construct (env : Env) (size_type : PageSizeType) (region_start region_end : Nat)
    (w : World) : Except Error (VolatileRegion × World) :=
  if env.bytes_for_size_type size_type = 0 then .error .division_by_zero
  else
    let r : VolatileRegion :=
      { _size_type := size_type
        _region_start := region_start
        _region_end := region_end
        _frames := List.replicate
          (ptrdiff_to_size_t region_end region_start / env.bytes_for_size_type size_type)
          { node_id := env.INVALID_NODE_ID }
        _madvice_free_call_count := 0
        _numa_page_movement_count := 0 }
    do
      DebugAssert env (decide (r._region_start < r._region_end))
      DebugAssert env (decide (r._frames.length > 0))
      if env.ENABLE_MPROTECT then
        let w1 ← mprotect w r._region_start (ptrdiff_to_size_t r._region_end r._region_start) false
        pure (r, w1)
      else
        pure (r, w)

/-- The method `VolatileRegion::get_page`. The product `page_id.index() * num_bytes` is a
product of 64-bit unsigned values and wraps modulo `2 ^ 64`, and the pointer it is added to
is a 64-bit address. -/
def VolatileRegion.get_page (env : Env) (r : VolatileRegion) (page_id : PageID) : Except Error Nat := do
  DebugAssert env (page_id.size_type == r._size_type)
  let num_bytes := env.bytes_for_size_type r._size_type
  let data := (r._region_start + (page_id.index * num_bytes) % 18446744073709551616) %
    18446744073709551616
  pure data

/-- The address that `get_page` computes for a page id. -/
def VolatileRegion.page_address (env : Env) (r : VolatileRegion) (page_id : PageID) : Nat :=
  (r._region_start + (page_id.index * env.bytes_for_size_type r._size_type) %
    18446744073709551616) % 18446744073709551616

/-- The method `VolatileRegion::get_frame`; an index past the frame vector is out of bounds. -/
def VolatileRegion.get_frame (env : Env) (r : VolatileRegion) (page_id : PageID) : Except Error Frame := do
  DebugAssert env (page_id.size_type == r._size_type)
  match r._frames[page_id.index]? with
  | some f => pure f
  | none => .error .out_of_bounds

/-- The statement `_frames[index].set_node_id(node)`; an index past the frame vector is
out of bounds. -/
def set_frame_node_id (frames : List Frame) (index : Nat) (node : NodeID) : Except Error (List Frame) :=
  match frames[index]? with
  | some f => .ok (frames.set index (f.set_node_id node))
  | none => .error .out_of_bounds

/-- The method `VolatileRegion::_protect_page`. -/
def VolatileRegion._protect_page (env : Env) (r : VolatileRegion) (page_id : PageID) (w : World) :
    Except Error World :=
  if env.ENABLE_MPROTECT then do
    DebugAssert env (page_id.size_type == r._size_type)
    let data ← r.get_page env page_id
    mprotect w data (page_id.byte_count env) false
  else pure w

/-- The method `VolatileRegion::_unprotect_page`. -/
def VolatileRegion._unprotect_page (env : Env) (r : VolatileRegion) (page_id : PageID) (w : World) :
    Except Error World :=
  if env.ENABLE_MPROTECT then do
    DebugAssert env (page_id.size_type == r._size_type)
    let data ← r.get_page env page_id
    mprotect w data (page_id.byte_count env) true
  else pure w

/-- The method `VolatileRegion::free`. -/
def VolatileRegion.free (env : Env) (r : VolatileRegion) (page_id : PageID) (w : World) :
    Except Error (VolatileRegion × World) := do
  DebugAssert env (page_id.size_type == r._size_type)
  let ptr ← r.get_page env page_id
  let w1 ← r._unprotect_page env page_id w
  let w2 ← madvise w1 ptr (page_id.byte_count env)
  let w3 ← r._protect_page env page_id w2
  pure ({ r with _madvice_free_call_count := r._madvice_free_call_count + 1 }, w3)

/-- The OS call `mbind(addr, len, MPOL_BIND, mask, ...)` together with the caller's `Fail` on
error. The physical placement of memory is not part of the model. -/
def mbind (w : World) (_addr _len : Nat) (_node : NodeID) : Except Error World :=
  if w.mbind_ok then .ok w else .error .os_call_failed

/-- The OS call `move_pages(0, count, pages, nodes, status, MPOL_MF_MOVE)` together with the
caller's `Fail` on error. The kernel reads `count` entries of `pages` and of `nodes` and
writes `count` entries of `status`; an array shorter than `count` is accessed out of
bounds. On success the status entries hold the node of each page. Returns the new
contents of `status`. -/
def move_pages (w : World) (count : Nat) (pages nodes status : List Nat) : Except Error (List Nat) :=
  if pages.length < count ∨ nodes.length < count ∨ status.length < count then .error .out_of_bounds
  else if w.move_pages_ok then .ok (nodes.take count ++ status.drop count)
  else .error .os_call_failed

/-- The loop `for (auto i = 0u; i < pages_to_move.size(); ++i)` of `move_page_to_numa_node`,
started at index `i` with `remaining = pages_to_move.size() - i` iterations to go. Each
iteration stores into `pages_to_move[i]` and into `nodes[i]`. -/
def VolatileRegion.fill_pages_to_move (env : Env) (r : VolatileRegion) (page_id : PageID)
    (target_memory_node : NodeID) :
    (remaining : Nat) → (i : Nat) → (pages_to_move nodes : List Nat) →
      Except Error (List Nat × List Nat)
  | 0, _, pages_to_move, nodes => .ok (pages_to_move, nodes)
  | remaining + 1, i, pages_to_move, nodes => do
    let page ← r.get_page env page_id
    if i < pages_to_move.length ∧ i < nodes.length then
      VolatileRegion.fill_pages_to_move env r page_id target_memory_node remaining (i + 1)
        (pages_to_move.set i (page + i * env.OS_PAGE_SIZE)) (nodes.set i target_memory_node)
    else .error .out_of_bounds

/-- The method `VolatileRegion::move_page_to_numa_node`. The three `static thread_local`
vectors are initialised by the first call on the thread: `pages_to_move{n}` (element type
`void*`) gets `n` null entries, while `nodes{static_cast<int>(n)}` and
`status{static_cast<int>(n)}` (element type `int`) are braced initialiser lists with the
single entry `n`. -/
def VolatileRegion.move_page_to_numa_node (env : Env) (r : VolatileRegion) (page_id : PageID)
    (target_memory_node : NodeID) (w : World) : Except Error (VolatileRegion × World) := do
  DebugAssert env (page_id.size_type == r._size_type)
  if env.HYRISE_NUMA_SUPPORT then
    DebugAssert env (target_memory_node != env.INVALID_NODE_ID)
    if env.OS_PAGE_SIZE = 0 then .error .division_by_zero
    else
      let n := env.bytes_for_size_type r._size_type / env.OS_PAGE_SIZE
      let pages_to_move := w.pages_to_move.getD (List.replicate n 0)
      let nodes := w.nodes.getD [n]
      let status := w.status.getD [n]
      let (pages_to_move, nodes) ←
        r.fill_pages_to_move env page_id target_memory_node pages_to_move.length 0 pages_to_move nodes
      let status ← move_pages w pages_to_move.length pages_to_move nodes status
      let w1 : World :=
        { w with pages_to_move := some pages_to_move, nodes := some nodes, status := some status }
      let frames ← set_frame_node_id r._frames page_id.index target_memory_node
      pure ({ r with _numa_page_movement_count := r._numa_page_movement_count + 1, _frames := frames }, w1)
  else
    pure (r, w)

/-- The method `VolatileRegion::mbind_to_numa_node`. -/
def VolatileRegion.mbind_to_numa_node (env : Env) (r : VolatileRegion) (page_id : PageID)
    (target_memory_node : NodeID) (w : World) : Except Error (VolatileRegion × World) := do
  DebugAssert env (page_id.size_type == r._size_type)
  if env.HYRISE_NUMA_SUPPORT then
    DebugAssert env (target_memory_node != env.INVALID_NODE_ID)
    let num_bytes := env.bytes_for_size_type r._size_type
    let page ← r.get_page env page_id
    let w1 ← mbind w page num_bytes target_memory_node
    let frames ← set_frame_node_id r._frames page_id.index target_memory_node
    pure ({ r with _numa_page_movement_count := r._numa_page_movement_count + 1, _frames := frames }, w1)
  else
    pure (r, w)

/-- The constant `num_numa_nodes` of `memcopy_page_to_numa_node`. -/
def num_numa_nodes : Nat := 4

/-- The number of bytes allocated for `intermediate_buffer`. -/
def intermediate_buffer_size (env : Env) : Nat :=
  num_numa_nodes * env.bytes_for_size_type env.MAX_PAGE_SIZE_TYPE

/-- The offset of `target_buffer` inside `intermediate_buffer`. -/
def target_buffer_offset (env : Env) (target_memory_node : NodeID) : Nat :=
  target_memory_node * env.bytes_for_size_type env.MAX_PAGE_SIZE_TYPE

/-- The call `std::memcpy(target_buffer, page_ptr, len)`: from memory into the intermediate
buffer at `offset`. -/
def memcpy_to_buffer (env : Env) (w : World) (offset src len : Nat) : Except Error World :=
  if intermediate_buffer_size env < offset + len then .error .out_of_bounds
  else if range_accessible w src len then
    .ok { w with intermediate_buffer := fun o =>
            if offset ≤ o ∧ o < offset + len then w.memory (src + (o - offset))
            else w.intermediate_buffer o }
  else .error .segmentation_fault

/-- The call `std::memcpy(page_ptr, target_buffer, len)`: from the intermediate buffer at
`offset` into memory. -/
def memcpy_from_buffer (env : Env) (w : World) (dst offset len : Nat) : Except Error World :=
  if intermediate_buffer_size env < offset + len then .error .out_of_bounds
  else if range_accessible w dst len then
    .ok { w with memory := fun a =>
            if dst ≤ a ∧ a < dst + len then w.intermediate_buffer (offset + (a - dst))
            else w.memory a }
  else .error .segmentation_fault

/-- The method `VolatileRegion::memcopy_page_to_numa_node`. -/
def VolatileRegion.memcopy_page_to_numa_node (env : Env) (r : VolatileRegion) (page_id : PageID)
    (target_memory_node : NodeID) (w : World) : Except Error (VolatileRegion × World) := do
  let page_ptr ← r.get_page env page_id
  let target_buffer := target_buffer_offset env target_memory_node
  let w1 ← memcpy_to_buffer env w target_buffer page_ptr (page_id.byte_count env)
  let (r1, w2) ← r.free env page_id w1
  let (r2, w3) ← r1.mbind_to_numa_node env page_id target_memory_node w2
  let w4 ← memcpy_from_buffer env w3 page_ptr target_buffer (page_id.byte_count env)
  pure (r2, w4)

/-- The constant `DEFAULT_RESERVED_VIRTUAL_MEMORY_PER_REGION`. -/
def DEFAULT_RESERVED_VIRTUAL_MEMORY_PER_REGION (env : Env) : Nat :=
  (env.DEFAULT_RESERVED_VIRTUAL_MEMORY / env.PAGE_SIZE_TYPES_COUNT) /
    env.bytes_for_size_type env.MAX_PAGE_SIZE_TYPE * env.bytes_for_size_type env.MAX_PAGE_SIZE_TYPE

/-- The loop of `create_volatile_regions`, started at index `i` with
`remaining = PAGE_SIZE_TYPES_COUNT - i` iterations to go. -/
def create_volatile_regions_loop (env : Env) (mapped_region : Nat) :
    (remaining : Nat) → (i : Nat) → World → Except Error (List VolatileRegion × World)
  | 0, _, w => .ok ([], w)
  | remaining + 1, i, w => do
    let (region, w1) ← VolatileRegion.construct env i
      (mapped_region + DEFAULT_RESERVED_VIRTUAL_MEMORY_PER_REGION env * i)
      (mapped_region + DEFAULT_RESERVED_VIRTUAL_MEMORY_PER_REGION env * (i + 1)) w
    let (regions, w2) ← create_volatile_regions_loop env mapped_region remaining (i + 1) w1
    pure (region :: regions, w2)

/-- The static method `VolatileRegion::create_volatile_regions`; the null pointer is
address zero. -/
def VolatileRegion.create_volatile_regions (env : Env) (mapped_region : Nat) (w : World) :
    Except Error (List VolatileRegion × World) := do
  DebugAssert env (mapped_region != 0)
  create_volatile_regions_loop env mapped_region env.PAGE_SIZE_TYPES_COUNT 0 w

/-- The region that iteration `i` of the loop of `create_volatile_regions` builds. -/
def region_of_class (env : Env) (M i : Nat) : VolatileRegion :=
  { _size_type := i
    _region_start := M + DEFAULT_RESERVED_VIRTUAL_MEMORY_PER_REGION env * i
    _region_end := M + DEFAULT_RESERVED_VIRTUAL_MEMORY_PER_REGION env * (i + 1)
    _frames := List.replicate
      (DEFAULT_RESERVED_VIRTUAL_MEMORY_PER_REGION env / env.bytes_for_size_type i)
      { node_id := env.INVALID_NODE_ID }
    _madvice_free_call_count := 0
    _numa_page_movement_count := 0 }

/-- The configuration of the end-to-end scenario of the specification: a mapping of 1 MiB
and two size classes of 4 KiB and 8 KiB, on an OS with pages of 4 KiB. -/
def scenario_env (debug numa mprotect : Bool) : Env :=
  { PAGE_SIZE_TYPES_COUNT := 2
    bytes_for_size_type := fun t => 4096 * 2 ^ t
    MAX_PAGE_SIZE_TYPE := 1
    DEFAULT_RESERVED_VIRTUAL_MEMORY := 1048576
    OS_PAGE_SIZE := 4096
    INVALID_NODE_ID := 4294967295
    HYRISE_DEBUG := debug
    HYRISE_NUMA_SUPPORT := numa
    ENABLE_MPROTECT := mprotect }

/-- A configuration with three size classes of 4 KiB, 8 KiB and 16 KiB over 1 MiB. -/
def three_class_env : Env :=
  { PAGE_SIZE_TYPES_COUNT := 3
    bytes_for_size_type := fun t => 4096 * 2 ^ t
    MAX_PAGE_SIZE_TYPE := 2
    DEFAULT_RESERVED_VIRTUAL_MEMORY := 1048576
    OS_PAGE_SIZE := 4096
    INVALID_NODE_ID := 4294967295
    HYRISE_DEBUG := true
    HYRISE_NUMA_SUPPORT := true
    ENABLE_MPROTECT := false }

/-- A world in which all memory is accessible, every OS call succeeds and the thread has
not run any region operation yet. -/
def fresh_world : World :=
  { memory := fun a => a % 251
    accessible := fun _ => true
    mprotect_ok := true
    madvise_ok := true
    mbind_ok := true
    move_pages_ok := true
    intermediate_buffer := fun _ => 0
    pages_to_move := none
    nodes := none
    status := none }

/-- A world like `fresh_world` in which `mprotect` calls fail. -/
def mprotect_failing_world : World :=
  { fresh_world with mprotect_ok := false }

/-- The first region of the end-to-end scenario: 128 slots of 4 KiB from address 65536. -/
def scenario_region : VolatileRegion :=
  { _size_type := 0
    _region_start := 65536
    _region_end := 589824
    _frames := List.replicate 128 { node_id := 4294967295 }
    _madvice_free_call_count := 0
    _numa_page_movement_count := 0 }

/-- The second region of the end-to-end scenario: 64 slots of 8 KiB from address 589824. -/
def scenario_region_large : VolatileRegion :=
  { _size_type := 1
    _region_start := 589824
    _region_end := 1114112
    _frames := List.replicate 64 { node_id := 4294967295 }
    _madvice_free_call_count := 0
    _numa_page_movement_count := 0 }

/-! ## Theorems -/

theorem ptrdiff_to_size_t_of_le (hi lo : Nat) (h : lo ≤ hi) : ptrdiff_to_size_t hi lo = hi - lo := by
  simp [ptrdiff_to_size_t, h]

/-- The region object the constructor initialises. -/
theorem construct_ok_fields (env : Env) (t : PageSizeType) (s e : Nat) (w : World)
    (r : VolatileRegion) (w2 : World) (h : VolatileRegion.construct env t s e w = .ok (r, w2)) :
    r = { _size_type := t, _region_start := s, _region_end := e,
          _frames := List.replicate (ptrdiff_to_size_t e s / env.bytes_for_size_type t)
            { node_id := env.INVALID_NODE_ID },
          _madvice_free_call_count := 0, _numa_page_movement_count := 0 } ∧
    env.bytes_for_size_type t ≠ 0 ∧
    (env.HYRISE_DEBUG = true → s < e ∧ 0 < ptrdiff_to_size_t e s / env.bytes_for_size_type t) ∧
    (env.ENABLE_MPROTECT = true → w.mprotect_ok = true ∧
      w2 = { w with accessible := fun a =>
        if s ≤ a ∧ a < s + ptrdiff_to_size_t e s then false else w.accessible a }) ∧
    (env.ENABLE_MPROTECT = false → w2 = w) := by
  unfold VolatileRegion.construct at h
  by_cases hb : env.bytes_for_size_type t = 0
  · simp [hb] at h
  · simp only [hb, if_false] at h
    cases hd : env.HYRISE_DEBUG <;> cases hm : env.ENABLE_MPROTECT <;> cases ho : w.mprotect_ok <;>
      by_cases hse : s < e <;>
      by_cases hc : 0 < ptrdiff_to_size_t e s / env.bytes_for_size_type t <;>
      simp_all [DebugAssert, mprotect, bind, Except.bind, pure, Except.pure]

theorem construct_ok_of (env : Env) (t : PageSizeType) (s e : Nat) (w : World)
    (hb : env.bytes_for_size_type t ≠ 0)
    (hd : env.HYRISE_DEBUG = true → s < e ∧ 0 < ptrdiff_to_size_t e s / env.bytes_for_size_type t)
    (hm : env.ENABLE_MPROTECT = true → w.mprotect_ok = true) :
    ∃ r w2, VolatileRegion.construct env t s e w = .ok (r, w2) := by
  unfold VolatileRegion.construct
  simp only [hb, if_false]
  cases hd2 : env.HYRISE_DEBUG <;> cases hm2 : env.ENABLE_MPROTECT <;>
    simp_all [DebugAssert, mprotect, bind, Except.bind, pure, Except.pure]



/-- When the interval is accepted but the `mprotect` of the constructor fails, the
constructor ends in `Fail`. -/
theorem construct_mprotect_fails (env : Env) (t : PageSizeType) (s e : Nat) (w : World)
    (hb : env.bytes_for_size_type t ≠ 0)
    (hd : env.HYRISE_DEBUG = true → s < e ∧ 0 < ptrdiff_to_size_t e s / env.bytes_for_size_type t)
    (hm : env.ENABLE_MPROTECT = true) (hfail : w.mprotect_ok = false) :
    VolatileRegion.construct env t s e w = .error .os_call_failed := by
  unfold VolatileRegion.construct
  simp only [hb, if_false]
  cases hd2 : env.HYRISE_DEBUG <;>
    simp_all [DebugAssert, mprotect, bind, Except.bind, pure, Except.pure]

/-- Claim C9, amended: with debug assertions compiled in, constructing a region of size
class `t` over `[s, e)` fails if and only if `e ≤ s`, or `(e - s) / bytes_for_size_type t = 0`,
or memory protection is compiled in and the `mprotect` of the interval fails; in every other
case it succeeds with `size() = (e - s) / bytes_for_size_type t ≥ 1` over the given
interval. -/
theorem construct_fails_iff (env : Env) (t : PageSizeType) (s e : Nat) (w : World)
    (hdebug : env.HYRISE_DEBUG = true) :
    ((∃ err, VolatileRegion.construct env t s e w = .error err) ↔
      (e ≤ s ∨ (e - s) / env.bytes_for_size_type t = 0 ∨
        (env.ENABLE_MPROTECT = true ∧ w.mprotect_ok = false))) ∧
    (¬ (e ≤ s ∨ (e - s) / env.bytes_for_size_type t = 0 ∨
        (env.ENABLE_MPROTECT = true ∧ w.mprotect_ok = false)) →
      ∃ r w2, VolatileRegion.construct env t s e w = .ok (r, w2) ∧
        r.size = (e - s) / env.bytes_for_size_type t ∧ 1 ≤ r.size ∧
        r._size_type = t ∧ r._region_start = s ∧ r._region_end = e) := by
  have key : ¬ (e ≤ s ∨ (e - s) / env.bytes_for_size_type t = 0 ∨
        (env.ENABLE_MPROTECT = true ∧ w.mprotect_ok = false)) →
      ∃ r w2, VolatileRegion.construct env t s e w = .ok (r, w2) ∧
        r.size = (e - s) / env.bytes_for_size_type t ∧ 1 ≤ r.size ∧
        r._size_type = t ∧ r._region_start = s ∧ r._region_end = e := by
    intro hn
    have hse : s < e := by
      have : ¬ e ≤ s := fun h0 => hn (Or.inl h0)
      omega
    have hc : 0 < (e - s) / env.bytes_for_size_type t :=
      Nat.pos_of_ne_zero (fun h0 => hn (Or.inr (Or.inl h0)))
    have hos : env.ENABLE_MPROTECT = true → w.mprotect_ok = true := by
      intro hm
      cases hw : w.mprotect_ok
      · exact absurd (Or.inr (Or.inr ⟨hm, hw⟩)) hn
      · rfl
    have hb : env.bytes_for_size_type t ≠ 0 := by
      intro h0
      rw [h0, Nat.div_zero] at hc
      exact Nat.lt_irrefl 0 hc
    have hp : ptrdiff_to_size_t e s = e - s := ptrdiff_to_size_t_of_le e s (Nat.le_of_lt hse)
    obtain ⟨r, w2, hr⟩ := construct_ok_of env t s e w hb (fun _ => ⟨hse, by rw [hp]; exact hc⟩) hos
    obtain ⟨hf, -⟩ := construct_ok_fields env t s e w r w2 hr
    subst hf
    refine ⟨_, w2, hr, ?_, ?_, rfl, rfl, rfl⟩
    · simp [VolatileRegion.size, hp]
    · simp only [VolatileRegion.size, hp, List.length_replicate]
      omega
  refine ⟨⟨?_, ?_⟩, key⟩
  · rintro ⟨err, herr⟩
    by_contra hn
    obtain ⟨r, w2, hr, -⟩ := key hn
    rw [hr] at herr
    cases herr
  · intro hbad
    cases hres : VolatileRegion.construct env t s e w with
    | error err => exact ⟨err, rfl⟩
    | ok res =>
      obtain ⟨r, w2⟩ := res
      obtain ⟨-, -, hd, hmp, -⟩ := construct_ok_fields env t s e w r w2 hres
      obtain ⟨hse, hc⟩ := hd hdebug
      rw [ptrdiff_to_size_t_of_le e s (Nat.le_of_lt hse)] at hc
      rcases hbad with h1 | h1 | ⟨h1, h2⟩
      · omega
      · rw [h1] at hc
        exact absurd hc (Nat.lt_irrefl 0)
      · rw [(hmp h1).1] at h2
        cases h2

theorem ptrdiff_slice (M P i : Nat) : ptrdiff_to_size_t (M + P * (i + 1)) (M + P * i) = P := by
  have e : M + P * (i + 1) = M + P * i + P := by rw [Nat.mul_succ, Nat.add_assoc]
  rw [e, ptrdiff_to_size_t_of_le _ _ (Nat.le_add_right _ _)]
  omega

theorem construct_mprotect_ok (env : Env) (t : PageSizeType) (s e : Nat) (w : World)
    (r : VolatileRegion) (w2 : World) (h : VolatileRegion.construct env t s e w = .ok (r, w2)) :
    w2.mprotect_ok = w.mprotect_ok := by
  obtain ⟨-, -, -, h1, h2⟩ := construct_ok_fields env t s e w r w2 h
  cases hm : env.ENABLE_MPROTECT
  · rw [h2 hm]
  · rw [(h1 hm).2]

theorem loop_ok_regions (env : Env) (M : Nat) :
    ∀ (n i : Nat) (w : World) (regions : List VolatileRegion) (w2 : World),
      create_volatile_regions_loop env M n i w = .ok (regions, w2) →
      regions = (List.range n).map (fun j => region_of_class env M (i + j)) := by
  intro n
  induction n with
  | zero =>
    intro i w regions w2 h
    simp [create_volatile_regions_loop] at h
    simp [h.1]
  | succ n ih =>
    intro i w regions w2 h
    simp only [create_volatile_regions_loop, bind, Except.bind] at h
    cases hc : VolatileRegion.construct env i
        (M + DEFAULT_RESERVED_VIRTUAL_MEMORY_PER_REGION env * i)
        (M + DEFAULT_RESERVED_VIRTUAL_MEMORY_PER_REGION env * (i + 1)) w with
    | error err => simp [hc] at h
    | ok res =>
      obtain ⟨r, w1⟩ := res
      simp only [hc] at h
      cases hl : create_volatile_regions_loop env M n (i + 1) w1 with
      | error err => simp [hl] at h
      | ok res2 =>
        obtain ⟨rs, w3⟩ := res2
        simp only [hl, pure, Except.pure, Except.ok.injEq, Prod.mk.injEq] at h
        obtain ⟨hf, -⟩ := construct_ok_fields env i _ _ w r w1 hc
        rw [ptrdiff_slice] at hf
        rw [← h.1, ih (i + 1) w1 rs w3 hl, List.range_succ_eq_map, List.map_cons, List.map_map, hf]
        simp only [region_of_class, Nat.add_zero, List.cons.injEq, true_and]
        apply List.map_congr_left
        intro j _
        simp only [Function.comp, Nat.succ_eq_add_one]
        have e1 : i + 1 + j = i + (j + 1) := by omega
        rw [e1]

theorem loop_succeeds (env : Env) (M : Nat) :
    ∀ (n i : Nat) (w : World),
      (∀ j, j < n → env.bytes_for_size_type (i + j) ≠ 0) →
      (env.HYRISE_DEBUG = true → ∀ j, j < n →
        env.bytes_for_size_type (i + j) ≤ DEFAULT_RESERVED_VIRTUAL_MEMORY_PER_REGION env) →
      (env.ENABLE_MPROTECT = true → w.mprotect_ok = true) →
      ∃ regions w2, create_volatile_regions_loop env M n i w = .ok (regions, w2) := by
  intro n
  induction n with
  | zero =>
    intro i w _ _ _
    exact ⟨[], w, rfl⟩
  | succ n ih =>
    intro i w hb hd hm
    have hb0 : env.bytes_for_size_type i ≠ 0 := by simpa using hb 0 (Nat.succ_pos n)
    obtain ⟨r, w1, hc⟩ := construct_ok_of env i
      (M + DEFAULT_RESERVED_VIRTUAL_MEMORY_PER_REGION env * i)
      (M + DEFAULT_RESERVED_VIRTUAL_MEMORY_PER_REGION env * (i + 1)) w hb0
      (by
        intro hdbg
        have hle : env.bytes_for_size_type i ≤ DEFAULT_RESERVED_VIRTUAL_MEMORY_PER_REGION env := by
          simpa using hd hdbg 0 (Nat.succ_pos n)
        have hpos : 0 < env.bytes_for_size_type i := Nat.pos_of_ne_zero hb0
        rw [ptrdiff_slice]
        refine ⟨?_, Nat.div_pos hle hpos⟩
        rw [Nat.mul_succ]
        omega)
      hm
    have hm1 : env.ENABLE_MPROTECT = true → w1.mprotect_ok = true := by
      intro h
      rw [construct_mprotect_ok env i _ _ w r w1 hc]
      exact hm h
    obtain ⟨rs, w2, hl⟩ := ih (i + 1) w1
      (by
        intro j hj
        have := hb (j + 1) (by omega)
        rwa [show i + (j + 1) = i + 1 + j by omega] at this)
      (by
        intro hdbg j hj
        have := hd hdbg (j + 1) (by omega)
        rwa [show i + (j + 1) = i + 1 + j by omega] at this)
      hm1
    refine ⟨r :: rs, w2, ?_⟩
    simp [create_volatile_regions_loop, bind, Except.bind, hc, hl, pure, Except.pure]

theorem create_ok_regions (env : Env) (M : Nat) (w : World) (regions : List VolatileRegion)
    (w2 : World) (h : VolatileRegion.create_volatile_regions env M w = .ok (regions, w2)) :
    regions = (List.range env.PAGE_SIZE_TYPES_COUNT).map (fun j => region_of_class env M j) := by
  unfold VolatileRegion.create_volatile_regions at h
  cases hd : DebugAssert env (M != 0) with
  | error err => simp [hd, bind, Except.bind] at h
  | ok u =>
    simp only [hd, bind, Except.bind] at h
    simpa using loop_ok_regions env M _ 0 w regions w2 h

theorem create_succeeds (env : Env) (M : Nat) (w : World)
    (hb : ∀ j, j < env.PAGE_SIZE_TYPES_COUNT → env.bytes_for_size_type j ≠ 0)
    (hd : env.HYRISE_DEBUG = true → M ≠ 0 ∧ ∀ j, j < env.PAGE_SIZE_TYPES_COUNT →
      env.bytes_for_size_type j ≤ DEFAULT_RESERVED_VIRTUAL_MEMORY_PER_REGION env)
    (hm : env.ENABLE_MPROTECT = true → w.mprotect_ok = true) :
    ∃ regions w2, VolatileRegion.create_volatile_regions env M w = .ok (regions, w2) := by
  unfold VolatileRegion.create_volatile_regions
  have h1 : DebugAssert env (M != 0) = .ok () := by
    cases hdbg : env.HYRISE_DEBUG
    · simp [DebugAssert, hdbg]
    · have := (hd hdbg).1
      simp [DebugAssert, hdbg, this]
  simp only [h1, bind, Except.bind]
  exact loop_succeeds env M _ 0 w (by simpa using hb)
    (by
      intro hdbg j hj
      simpa using (hd hdbg).2 j hj)
    hm



theorem create_ok_get (env : Env) (M : Nat) (w : World) (regions : List VolatileRegion)
    (w2 : World) (h : VolatileRegion.create_volatile_regions env M w = .ok (regions, w2))
    (i : Nat) (hi : i < env.PAGE_SIZE_TYPES_COUNT) :
    regions[i]? = some (region_of_class env M i) := by
  rw [create_ok_regions env M w regions w2 h]
  simp [List.getElem?_map, List.getElem?_range hi]

/-- Claim C3: with `P = ((S / K) / bytes(MAX)) * bytes(MAX)`, every region set that
`create_volatile_regions(M)` returns has `K` regions, the `i`-th of size class `i` over
exactly `[M + i * P, M + (i + 1) * P)`, so all have length `P`, the first starts at `M`, and
each region starts where its predecessor ends. The call does return a region set whenever
every page size is positive, the assertions (when compiled in) hold, that is `M` is not null
and each slice holds a page of its class, and the `mprotect` of each constructor (when
compiled in) succeeds. -/
theorem create_volatile_regions_layout (env : Env) (M : Nat) (w : World) (P : Nat)
    (hP : P = (env.DEFAULT_RESERVED_VIRTUAL_MEMORY / env.PAGE_SIZE_TYPES_COUNT) /
      env.bytes_for_size_type env.MAX_PAGE_SIZE_TYPE * env.bytes_for_size_type env.MAX_PAGE_SIZE_TYPE) :
    (∀ regions w2, VolatileRegion.create_volatile_regions env M w = .ok (regions, w2) →
      regions.length = env.PAGE_SIZE_TYPES_COUNT ∧
      (∀ i, i < env.PAGE_SIZE_TYPES_COUNT → ∃ r, regions[i]? = some r ∧ r.size_type = i ∧
        r._region_start = M + i * P ∧ r._region_end = M + (i + 1) * P ∧
        r._region_end - r._region_start = P) ∧
      (0 < env.PAGE_SIZE_TYPES_COUNT → ∃ r, regions[0]? = some r ∧ r._region_start = M) ∧
      (∀ i, i + 1 < env.PAGE_SIZE_TYPES_COUNT → ∃ r r2, regions[i]? = some r ∧
        regions[i + 1]? = some r2 ∧ r2._region_start = r._region_end)) ∧
    ((∀ t, t < env.PAGE_SIZE_TYPES_COUNT → 0 < env.bytes_for_size_type t) →
      (env.HYRISE_DEBUG = true → M ≠ 0 ∧
        ∀ t, t < env.PAGE_SIZE_TYPES_COUNT → env.bytes_for_size_type t ≤ P) →
      (env.ENABLE_MPROTECT = true → w.mprotect_ok = true) →
      ∃ regions w2, VolatileRegion.create_volatile_regions env M w = .ok (regions, w2)) := by
  have hP2 : P = DEFAULT_RESERVED_VIRTUAL_MEMORY_PER_REGION env := hP
  subst hP2
  refine ⟨?_, ?_⟩
  · intro regions w2 h
    refine ⟨?_, ?_, ?_, ?_⟩
    · rw [create_ok_regions env M w regions w2 h]
      simp
    · intro i hi
      refine ⟨region_of_class env M i, create_ok_get env M w regions w2 h i hi, rfl, ?_, ?_, ?_⟩
      · simp [region_of_class, Nat.mul_comm]
      · simp [region_of_class, Nat.mul_comm]
      · simp only [region_of_class, Nat.mul_succ]
        omega
    · intro hK
      exact ⟨region_of_class env M 0, create_ok_get env M w regions w2 h 0 hK,
        by simp [region_of_class]⟩
    · intro i hi
      exact ⟨region_of_class env M i, region_of_class env M (i + 1),
        create_ok_get env M w regions w2 h i (by omega),
        create_ok_get env M w regions w2 h (i + 1) hi, rfl⟩
  · intro hb hd hm
    exact create_succeeds env M w (fun j hj => Nat.pos_iff_ne_zero.mp (hb j hj)) hd hm

theorem slice_times_count (S K B : Nat) : K * (S / K / B * B) = S - S % (K * B) := by
  rw [Nat.div_div_eq_div_mul, ← Nat.mul_assoc, Nat.mul_comm K, Nat.mul_assoc]
  have := Nat.div_add_mod S (K * B)
  have h2 : S / (K * B) * (K * B) = K * B * (S / (K * B)) := Nat.mul_comm _ _
  omega

/-- Claim C4, amended: for a region set built by `create_volatile_regions(M)` with `K > 0`
size classes, the last region ends at `M + K * P`, which is at most `M + S`, and equals
`M + S` exactly when `S` is a multiple of `K * bytes_for_size_type(MAX)`. -/
theorem create_volatile_regions_last_end (env : Env) (M : Nat) (w : World) (P : Nat)
    (regions : List VolatileRegion) (w2 : World)
    (hP : P = (env.DEFAULT_RESERVED_VIRTUAL_MEMORY / env.PAGE_SIZE_TYPES_COUNT) /
      env.bytes_for_size_type env.MAX_PAGE_SIZE_TYPE * env.bytes_for_size_type env.MAX_PAGE_SIZE_TYPE)
    (hK : 0 < env.PAGE_SIZE_TYPES_COUNT)
    (h : VolatileRegion.create_volatile_regions env M w = .ok (regions, w2)) :
    ∃ r, regions[env.PAGE_SIZE_TYPES_COUNT - 1]? = some r ∧ regions.getLast? = some r ∧
      r._region_end = M + env.PAGE_SIZE_TYPES_COUNT * P ∧
      r._region_end ≤ M + env.DEFAULT_RESERVED_VIRTUAL_MEMORY ∧
      (r._region_end = M + env.DEFAULT_RESERVED_VIRTUAL_MEMORY ↔
        env.DEFAULT_RESERVED_VIRTUAL_MEMORY %
          (env.PAGE_SIZE_TYPES_COUNT * env.bytes_for_size_type env.MAX_PAGE_SIZE_TYPE) = 0) := by
  have hget := create_ok_get env M w regions w2 h (env.PAGE_SIZE_TYPES_COUNT - 1) (by omega)
  have hlen : regions.length = env.PAGE_SIZE_TYPES_COUNT := by
    rw [create_ok_regions env M w regions w2 h]
    simp
  have hend : (region_of_class env M (env.PAGE_SIZE_TYPES_COUNT - 1))._region_end =
      M + env.PAGE_SIZE_TYPES_COUNT * P := by
    have hP2 : P = DEFAULT_RESERVED_VIRTUAL_MEMORY_PER_REGION env := hP
    simp only [region_of_class, ← hP2]
    rw [Nat.sub_add_cancel hK, Nat.mul_comm]
  have hmul := slice_times_count env.DEFAULT_RESERVED_VIRTUAL_MEMORY env.PAGE_SIZE_TYPES_COUNT
    (env.bytes_for_size_type env.MAX_PAGE_SIZE_TYPE)
  rw [← hP] at hmul
  have hmod := Nat.mod_le env.DEFAULT_RESERVED_VIRTUAL_MEMORY
    (env.PAGE_SIZE_TYPES_COUNT * env.bytes_for_size_type env.MAX_PAGE_SIZE_TYPE)
  refine ⟨region_of_class env M (env.PAGE_SIZE_TYPES_COUNT - 1), hget, ?_, hend, ?_, ?_⟩
  · rw [List.getLast?_eq_getElem?, hlen, hget]
  · rw [hend, hmul]
    omega
  · rw [hend, hmul]
    omega



/-- The scenario of the specification: two regions of 512 KiB each, the second one over
`[65536 + 524288, 65536 + 1048576)`. -/
theorem create_volatile_regions_layout_witness :
    ∃ regions w2 r, VolatileRegion.create_volatile_regions (scenario_env true true true) 65536
        fresh_world = .ok (regions, w2) ∧ regions.length = 2 ∧ regions[1]? = some r ∧
      r.size_type = 1 ∧ r._region_start = 65536 + 1 * 524288 ∧
      r._region_end = 65536 + (1 + 1) * 524288 := by
  have key := create_volatile_regions_layout (scenario_env true true true) 65536 fresh_world
    524288 (by decide)
  obtain ⟨regions, w2, h⟩ := key.2 (by decide) (by decide) (fun _ => rfl)
  obtain ⟨hlen, hall, -, -⟩ := key.1 regions w2 h
  obtain ⟨r, hr, ht, hs, he, -⟩ := hall 1 (by decide)
  exact ⟨regions, w2, r, h, hlen, hr, ht, hs, he⟩

/-- Claim C4 as stated fails: over a mapping of 1 MiB with three size classes of 4 KiB, 8 KiB
and 16 KiB each slice has 344064 bytes, so the last region ends 16384 bytes before the end
of the mapping. -/
theorem create_volatile_regions_last_end_short :
    ∃ regions w2 r, VolatileRegion.create_volatile_regions three_class_env 65536 fresh_world =
        .ok (regions, w2) ∧ regions.getLast? = some r ∧
      r._region_end = 65536 + 1032192 ∧
      r._region_end ≠ 65536 + three_class_env.DEFAULT_RESERVED_VIRTUAL_MEMORY := by
  obtain ⟨regions, w2, h⟩ := create_succeeds three_class_env 65536 fresh_world
    (by decide) (by decide) (by decide)
  have hget := create_ok_get three_class_env 65536 fresh_world regions w2 h 2 (by decide)
  have hlen : regions.length = 3 := by
    rw [create_ok_regions three_class_env 65536 fresh_world regions w2 h]
    simp [three_class_env]
  refine ⟨regions, w2, region_of_class three_class_env 65536 2, h, ?_, ?_, ?_⟩
  · rw [List.getLast?_eq_getElem?, hlen, hget]
  · simp only [region_of_class]
    decide
  · simp only [region_of_class]
    decide

/-- In the scenario of the specification the two slices of 512 KiB cover the mapping. -/
theorem create_volatile_regions_last_end_witness :
    ∃ regions w2 r, VolatileRegion.create_volatile_regions (scenario_env true true true) 65536
        fresh_world = .ok (regions, w2) ∧ regions.getLast? = some r ∧
      r._region_end = 65536 + 1048576 := by
  obtain ⟨regions, w2, h⟩ := create_succeeds (scenario_env true true true) 65536 fresh_world
    (by decide) (by decide) (fun _ => rfl)
  obtain ⟨r, -, hlast, hend, -⟩ := create_volatile_regions_last_end (scenario_env true true true)
    65536 fresh_world 524288 regions w2 (by decide) (by decide) h
  exact ⟨regions, w2, r, h, hlast, by rw [hend]; decide⟩

theorem pow_two_dvd_of_le (x y : Nat) (hx : ∃ a, x = 2 ^ a) (hy : ∃ b, y = 2 ^ b) (h : x ≤ y) :
    x ∣ y := by
  obtain ⟨a, rfl⟩ := hx
  obtain ⟨b, rfl⟩ := hy
  exact Nat.pow_dvd_pow 2 ((Nat.pow_le_pow_iff_right (by decide)).mp h)

/-- Claim C5: when every page size is a power of two not larger than the largest page size
and `S / K ≥ bytes_for_size_type(MAX)`, every region of a region set that
`create_volatile_regions` returns has `size() = P / bytes_for_size_type(t)` for its slice
length `P` and size class `t`, `size() ≥ 1`, and `size() * bytes_for_size_type(t) = P`.
The call does return a region set when `M` is not null and the `mprotect` of each
constructor (when compiled in) succeeds. -/
theorem create_volatile_regions_slot_counts (env : Env) (M : Nat) (w : World) (P : Nat)
    (hP : P = (env.DEFAULT_RESERVED_VIRTUAL_MEMORY / env.PAGE_SIZE_TYPES_COUNT) /
      env.bytes_for_size_type env.MAX_PAGE_SIZE_TYPE * env.bytes_for_size_type env.MAX_PAGE_SIZE_TYPE)
    (hpow : ∀ t, t < env.PAGE_SIZE_TYPES_COUNT → ∃ a, env.bytes_for_size_type t = 2 ^ a)
    (hmax : ∃ b, env.bytes_for_size_type env.MAX_PAGE_SIZE_TYPE = 2 ^ b)
    (hle : ∀ t, t < env.PAGE_SIZE_TYPES_COUNT →
      env.bytes_for_size_type t ≤ env.bytes_for_size_type env.MAX_PAGE_SIZE_TYPE)
    (hS : env.bytes_for_size_type env.MAX_PAGE_SIZE_TYPE ≤
      env.DEFAULT_RESERVED_VIRTUAL_MEMORY / env.PAGE_SIZE_TYPES_COUNT) :
    (∀ regions w2, VolatileRegion.create_volatile_regions env M w = .ok (regions, w2) →
      ∀ i, i < env.PAGE_SIZE_TYPES_COUNT → ∃ r, regions[i]? = some r ∧ r.size_type = i ∧
        r._region_end - r._region_start = P ∧
        r.size = P / env.bytes_for_size_type i ∧ 1 ≤ r.size ∧
        r.size * env.bytes_for_size_type i = P) ∧
    ((env.HYRISE_DEBUG = true → M ≠ 0) → (env.ENABLE_MPROTECT = true → w.mprotect_ok = true) →
      ∃ regions w2, VolatileRegion.create_volatile_regions env M w = .ok (regions, w2)) := by
  have hP2 : P = DEFAULT_RESERVED_VIRTUAL_MEMORY_PER_REGION env := hP
  have hBpos : 0 < env.bytes_for_size_type env.MAX_PAGE_SIZE_TYPE := by
    obtain ⟨b, hb⟩ := hmax
    rw [hb]
    exact Nat.pos_pow_of_pos b (by decide)
  have hBP : env.bytes_for_size_type env.MAX_PAGE_SIZE_TYPE ≤ P := by
    rw [hP]
    exact Nat.le_mul_of_pos_left _ (Nat.div_pos hS hBpos)
  have hdvd : ∀ t, t < env.PAGE_SIZE_TYPES_COUNT → env.bytes_for_size_type t ∣ P := by
    intro t ht
    rw [hP]
    exact Dvd.dvd.mul_left (pow_two_dvd_of_le _ _ (hpow t ht) hmax (hle t ht)) _
  have hpos : ∀ t, t < env.PAGE_SIZE_TYPES_COUNT → 0 < env.bytes_for_size_type t := by
    intro t ht
    obtain ⟨a, ha⟩ := hpow t ht
    rw [ha]
    exact Nat.pos_pow_of_pos a (by decide)
  refine ⟨?_, ?_⟩
  · intro regions w2 h i hi
    refine ⟨region_of_class env M i, create_ok_get env M w regions w2 h i hi, rfl, ?_, ?_, ?_, ?_⟩
    · simp only [region_of_class, ← hP2, Nat.mul_succ]
      omega
    · simp [VolatileRegion.size, region_of_class, ← hP2]
    · simp only [VolatileRegion.size, region_of_class, ← hP2, List.length_replicate]
      exact Nat.div_pos (Nat.le_trans (hle i hi) hBP) (hpos i hi)
    · simp only [VolatileRegion.size, region_of_class, ← hP2, List.length_replicate]
      exact Nat.div_mul_cancel (hdvd i hi)
  · intro hd hm
    exact create_succeeds env M w (fun j hj => Nat.pos_iff_ne_zero.mp (hpos j hj))
      (fun hdbg => ⟨hd hdbg, fun j hj => by
        rw [← hP2]
        exact Nat.le_trans (hle j hj) hBP⟩) hm

/-- The scenario of the specification: 1 MiB, classes of 4 KiB and 8 KiB, slices of 512 KiB
with 128 and 64 slots. -/
theorem create_volatile_regions_slot_counts_witness :
    ∃ regions w2 r0 r1, VolatileRegion.create_volatile_regions (scenario_env true true true) 65536
        fresh_world = .ok (regions, w2) ∧
      regions[0]? = some r0 ∧ regions[1]? = some r1 ∧
      r0._region_end - r0._region_start = 524288 ∧ r1._region_end - r1._region_start = 524288 ∧
      r0.size = 128 ∧ r1.size = 64 := by
  have key := create_volatile_regions_slot_counts (scenario_env true true true) 65536 fresh_world
    524288 (by decide)
    (fun t _ => ⟨12 + t, by
      show 4096 * 2 ^ t = 2 ^ (12 + t)
      rw [Nat.pow_add]⟩)
    ⟨13, by decide⟩ (by decide) (by decide)
  obtain ⟨regions, w2, h⟩ := key.2 (by decide) (fun _ => rfl)
  obtain ⟨r0, h0, -, hl0, hs0, -, -⟩ := key.1 regions w2 h 0 (by decide)
  obtain ⟨r1, h1, -, hl1, hs1, -, -⟩ := key.1 regions w2 h 1 (by decide)
  exact ⟨regions, w2, r0, r1, h, h0, h1, hl0, hl1, by rw [hs0]; decide, by rw [hs1]; decide⟩

theorem get_page_eq (env : Env) (r : VolatileRegion) (p : PageID) (h : p.size_type = r._size_type) :
    r.get_page env p = .ok (r.page_address env p) := by
  simp [VolatileRegion.get_page, VolatileRegion.page_address, DebugAssert, h, bind, Except.bind,
    pure, Except.pure]

/-- The address of a page is `start + index * bytes` modulo `2 ^ 64`. -/
theorem page_address_mod (env : Env) (r : VolatileRegion) (p : PageID) :
    r.page_address env p =
      (r._region_start + p.index * env.bytes_for_size_type r._size_type) %
        18446744073709551616 := by
  simp [VolatileRegion.page_address, Nat.add_mod]

/-- The address of a page is `start + index * bytes` when that lies in the 64-bit address
space. -/
theorem page_address_of_lt (env : Env) (r : VolatileRegion) (p : PageID)
    (hlt : r._region_start + p.index * env.bytes_for_size_type r._size_type <
      18446744073709551616) :
    r.page_address env p = r._region_start + p.index * env.bytes_for_size_type r._size_type := by
  rw [page_address_mod, Nat.mod_eq_of_lt hlt]

theorem range_accessible_iff (w : World) (addr len : Nat) :
    range_accessible w addr len = true ↔ ∀ k, k < len → w.accessible (addr + k) = true := by
  simp [range_accessible, List.all_eq_true]

/-- The world after `free` when memory protection is compiled in. -/
theorem free_with_mprotect (env : Env) (r : VolatileRegion) (p : PageID) (w : World)
    (h : p.size_type = r._size_type) (hm : env.ENABLE_MPROTECT = true)
    (h1 : w.mprotect_ok = true) (h2 : w.madvise_ok = true) :
    r.free env p w = .ok
      ({ r with _madvice_free_call_count := r._madvice_free_call_count + 1 },
       { w with
          memory := fun a =>
            if r.page_address env p ≤ a ∧
               a < r.page_address env p + p.byte_count env
            then 0 else w.memory a
          accessible := fun a =>
            if r.page_address env p ≤ a ∧
               a < r.page_address env p + p.byte_count env
            then false else w.accessible a }) := by
  simp only [VolatileRegion.free, VolatileRegion._unprotect_page, VolatileRegion._protect_page,
    get_page_eq env r p h, hm, if_true, bind, Except.bind, pure, Except.pure, DebugAssert, h,
    beq_self_eq_true, Bool.not_true, Bool.and_false, Bool.false_eq_true, if_false, mprotect, h1,
    madvise, h2]
  congr 2
  simp only [World.mk.injEq, true_and, and_true]
  funext a
  split <;> simp_all

/-- The world after `free` when memory protection is compiled out. -/
theorem free_without_mprotect (env : Env) (r : VolatileRegion) (p : PageID) (w : World)
    (h : p.size_type = r._size_type) (hm : env.ENABLE_MPROTECT = false)
    (h2 : w.madvise_ok = true) :
    r.free env p w = .ok
      ({ r with _madvice_free_call_count := r._madvice_free_call_count + 1 },
       { w with
          memory := fun a =>
            if r.page_address env p ≤ a ∧
               a < r.page_address env p + p.byte_count env
            then 0 else w.memory a }) := by
  simp only [VolatileRegion.free, VolatileRegion._unprotect_page, VolatileRegion._protect_page,
    get_page_eq env r p h, hm, bind, Except.bind, pure, Except.pure, DebugAssert, h,
    beq_self_eq_true, Bool.not_true, Bool.and_false, Bool.false_eq_true, if_false,
    madvise, h2, if_true]



theorem slot_inside (D b i k : Nat) (hi : i < D / b) (hk : k < b) : i * b + k < D := by
  have h1 : (i + 1) * b ≤ D / b * b := Nat.mul_le_mul_right b hi
  have h2 : D / b * b ≤ D := Nat.div_mul_le_self D b
  rw [Nat.succ_mul] at h1
  omega

theorem slot_disjoint (b i j k : Nat) (hj : j ≠ i) (hk : k < b) :
    j * b + k < i * b ∨ i * b + b ≤ j * b + k := by
  rcases Nat.lt_or_gt_of_ne hj with h | h
  · left
    have h1 : (j + 1) * b ≤ i * b := Nat.mul_le_mul_right b h
    rw [Nat.succ_mul] at h1
    omega
  · right
    have h1 : (i + 1) * b ≤ j * b := Nat.mul_le_mul_right b h
    rw [Nat.succ_mul] at h1
    omega

/-- Claim C8: with memory protection compiled in, every byte of every slot of a region is
inaccessible right after its construction (and construction succeeds over an interval
that holds a page when `mprotect` succeeds); and for a page id `p` of the region's size
class, with `mprotect` and `madvise` succeeding, `free(p)` returns, leaves every byte at
the address of `p` inaccessible whatever its protection was, leaves the protection of every
other byte unchanged, and raises `madvice_free_call_count()` by exactly 1. When `p` names a
slot inside the 64-bit address space, as every slot of a region does, that address is
`start + index * bytes`, so slot `p` ends inaccessible and the protection of every other
slot is unchanged. -/
theorem protection_invariant (env : Env) (hm : env.ENABLE_MPROTECT = true) :
    (∀ (t : PageSizeType) (s e : Nat) (w : World) (r : VolatileRegion) (w2 : World),
      VolatileRegion.construct env t s e w = .ok (r, w2) →
      (∀ i, i < r.size → ∀ k, k < env.bytes_for_size_type t →
        w2.accessible (s + i * env.bytes_for_size_type t + k) = false) ∧
      (∀ a, s ≤ a → a < e → w2.accessible a = false)) ∧
    (∀ (t : PageSizeType) (s e : Nat) (w : World), w.mprotect_ok = true → s < e →
      0 < (e - s) / env.bytes_for_size_type t →
      ∃ r w2, VolatileRegion.construct env t s e w = .ok (r, w2)) ∧
    (∀ (r : VolatileRegion) (p : PageID) (w : World), p.size_type = r.size_type →
      w.mprotect_ok = true → w.madvise_ok = true →
      ∃ a r2 w2, r.get_page env p = .ok a ∧ r.free env p w = .ok (r2, w2) ∧
        (∀ k, k < env.bytes_for_size_type r.size_type → w2.accessible (a + k) = false) ∧
        (∀ x, x < a ∨ a + env.bytes_for_size_type r.size_type ≤ x →
          w2.accessible x = w.accessible x) ∧
        (r._region_start + p.index * env.bytes_for_size_type r.size_type < 18446744073709551616 →
          a = r._region_start + p.index * env.bytes_for_size_type r.size_type ∧
          (∀ k, k < env.bytes_for_size_type r.size_type →
            w2.accessible (r._region_start + p.index * env.bytes_for_size_type r.size_type + k) =
              false) ∧
          (∀ j, j ≠ p.index → ∀ k, k < env.bytes_for_size_type r.size_type →
            w2.accessible (r._region_start + j * env.bytes_for_size_type r.size_type + k) =
              w.accessible (r._region_start + j * env.bytes_for_size_type r.size_type + k))) ∧
        r2.madvice_free_call_count = r.madvice_free_call_count + 1 ∧
        r2.numa_page_movement_count = r.numa_page_movement_count ∧
        r2._frames = r._frames) := by
  refine ⟨?_, ?_, ?_⟩
  · intro t s e w r w2 h
    obtain ⟨hr, -, -, hw, -⟩ := construct_ok_fields env t s e w r w2 h
    obtain ⟨-, hw2⟩ := hw hm
    subst hr
    refine ⟨?_, ?_⟩
    · intro i hi k hk
      simp only [VolatileRegion.size, List.length_replicate] at hi
      have hin := slot_inside _ _ i k hi hk
      rw [hw2]
      simp only [ite_eq_left_iff]
      intro hcon
      exact absurd ⟨by omega, by omega⟩ hcon
    · intro a hsa hae
      have hp := ptrdiff_to_size_t_of_le e s (by omega)
      rw [hw2]
      simp only [ite_eq_left_iff]
      intro hcon
      exact absurd ⟨hsa, by omega⟩ hcon
  · intro t s e w hok hse hc
    have hb : env.bytes_for_size_type t ≠ 0 := by
      intro h0
      rw [h0, Nat.div_zero] at hc
      exact Nat.lt_irrefl 0 hc
    exact construct_ok_of env t s e w hb
      (fun _ => ⟨hse, by rw [ptrdiff_to_size_t_of_le e s (Nat.le_of_lt hse)]; exact hc⟩)
      (fun _ => hok)
  · intro r p w h h1 h2
    have h' : p.size_type = r._size_type := h
    refine ⟨r.page_address env p, _, _, get_page_eq env r p h',
      free_with_mprotect env r p w h' hm h1 h2, ?_, ?_, ?_, rfl, rfl, rfl⟩
    · intro k hk
      simp only [VolatileRegion.size_type, PageID.byte_count, h'] at hk ⊢
      simp only [ite_eq_left_iff]
      intro hcon
      exact absurd ⟨by omega, by omega⟩ hcon
    · intro x hx
      simp only [VolatileRegion.size_type, PageID.byte_count, h'] at hx ⊢
      simp only [ite_eq_right_iff]
      intro hcon
      omega
    · intro hlt
      have ha : r.page_address env p =
          r._region_start + p.index * env.bytes_for_size_type r._size_type :=
        page_address_of_lt env r p hlt
      refine ⟨ha, ?_, ?_⟩
      · intro k hk
        simp only [VolatileRegion.size_type, PageID.byte_count, h', ha] at hk ⊢
        simp only [ite_eq_left_iff]
        intro hcon
        exact absurd ⟨by omega, by omega⟩ hcon
      · intro j hj k hk
        simp only [VolatileRegion.size_type, PageID.byte_count, h', ha] at hk ⊢
        have hd := slot_disjoint (env.bytes_for_size_type r._size_type) p.index j k hj hk
        simp only [ite_eq_right_iff]
        intro hcon
        omega

theorem set_frame_node_id_of_lt (frames : List Frame) (i : Nat) (n : NodeID) (h : i < frames.length) :
    set_frame_node_id frames i n = .ok (frames.set i { node_id := n }) := by
  simp [set_frame_node_id, List.getElem?_eq_getElem h, Frame.set_node_id]

theorem set_frame_node_id_of_ge (frames : List Frame) (i : Nat) (n : NodeID) (h : frames.length ≤ i) :
    set_frame_node_id frames i n = .error .out_of_bounds := by
  simp [set_frame_node_id, List.getElem?_eq_none h]

/-- Without NUMA support `mbind_to_numa_node` does nothing. -/
theorem mbind_to_numa_node_without_numa (env : Env) (r : VolatileRegion) (p : PageID) (n : NodeID)
    (w : World) (h : p.size_type = r._size_type) (hn : env.HYRISE_NUMA_SUPPORT = false) :
    r.mbind_to_numa_node env p n w = .ok (r, w) := by
  simp [VolatileRegion.mbind_to_numa_node, DebugAssert, h, hn, bind, Except.bind, pure, Except.pure]

/-- Without NUMA support `move_page_to_numa_node` does nothing. -/
theorem move_page_to_numa_node_without_numa (env : Env) (r : VolatileRegion) (p : PageID)
    (n : NodeID) (w : World) (h : p.size_type = r._size_type)
    (hn : env.HYRISE_NUMA_SUPPORT = false) :
    r.move_page_to_numa_node env p n w = .ok (r, w) := by
  simp [VolatileRegion.move_page_to_numa_node, DebugAssert, h, hn, bind, Except.bind, pure,
    Except.pure]

/-- With NUMA support and a successful `mbind`, `mbind_to_numa_node` records the node in
the frame of the page and counts one movement. -/
theorem mbind_to_numa_node_with_numa (env : Env) (r : VolatileRegion) (p : PageID) (n : NodeID)
    (w : World) (h : p.size_type = r._size_type) (hn : env.HYRISE_NUMA_SUPPORT = true)
    (hv : n ≠ env.INVALID_NODE_ID) (hok : w.mbind_ok = true) (hi : p.index < r._frames.length) :
    r.mbind_to_numa_node env p n w = .ok
      ({ r with _numa_page_movement_count := r._numa_page_movement_count + 1,
                _frames := r._frames.set p.index { node_id := n } }, w) := by
  simp [VolatileRegion.mbind_to_numa_node, DebugAssert, h, hn, hv, bind, Except.bind, pure,
    Except.pure, get_page_eq env r p h, mbind, hok, set_frame_node_id_of_lt _ _ _ hi]

theorem mbind_to_numa_node_world (env : Env) (r : VolatileRegion) (p : PageID) (n : NodeID)
    (w : World) (r2 : VolatileRegion) (w2 : World)
    (h : r.mbind_to_numa_node env p n w = .ok (r2, w2)) : w2 = w := by
  unfold VolatileRegion.mbind_to_numa_node at h
  cases hd : DebugAssert env (p.size_type == r._size_type) with
  | error err => simp [hd, bind, Except.bind] at h
  | ok u =>
    simp only [hd, bind, Except.bind] at h
    cases hn : env.HYRISE_NUMA_SUPPORT
    · simp only [hn, Bool.false_eq_true, if_false, pure, Except.pure, Except.ok.injEq,
        Prod.mk.injEq] at h
      exact h.2.symm
    · simp only [hn, if_true] at h
      cases hd2 : DebugAssert env (n != env.INVALID_NODE_ID) with
      | error err => simp [hd2] at h
      | ok u2 =>
        simp only [hd2] at h
        cases hg : r.get_page env p with
        | error err => simp [hg] at h
        | ok a =>
          simp only [hg] at h
          cases hb : w.mbind_ok
          · simp [mbind, hb] at h
          · simp only [mbind, hb, if_true] at h
            cases hs : set_frame_node_id r._frames p.index n with
            | error err => simp [hs] at h
            | ok fr =>
              simp only [hs, pure, Except.pure, Except.ok.injEq, Prod.mk.injEq] at h
              exact h.2.symm



/-- Two calls of `mbind_to_numa_node` in a row with the same node: the frame records the
node after each call and the movement counter is two higher in the end. -/
theorem mbind_to_numa_node_twice (env : Env) (r : VolatileRegion) (p : PageID) (n : NodeID)
    (w : World) (h : p.size_type = r._size_type) (hn : env.HYRISE_NUMA_SUPPORT = true)
    (hv : n ≠ env.INVALID_NODE_ID) (hok : w.mbind_ok = true) (hi : p.index < r._frames.length) :
    ∃ r1 r2, r.mbind_to_numa_node env p n w = .ok (r1, w) ∧
      r1.mbind_to_numa_node env p n w = .ok (r2, w) ∧
      r1._frames[p.index]? = some { node_id := n } ∧
      r2._frames[p.index]? = some { node_id := n } ∧
      r1.numa_page_movement_count = r.numa_page_movement_count + 1 ∧
      r2.numa_page_movement_count = r.numa_page_movement_count + 2 := by
  have hi1 : p.index < (r._frames.set p.index { node_id := n }).length := by
    rw [List.length_set]
    exact hi
  refine ⟨_, _, mbind_to_numa_node_with_numa env r p n w h hn hv hok hi,
    mbind_to_numa_node_with_numa env _ p n w h hn hv hok hi1, ?_, ?_, rfl, rfl⟩
  · exact List.getElem?_set_self hi
  · exact List.getElem?_set_self hi1

/-- A target node whose staging range ends past the intermediate buffer makes the first
copy of `memcopy_page_to_numa_node` write out of bounds. -/
theorem memcopy_out_of_bounds (env : Env) (r : VolatileRegion) (p : PageID) (n : NodeID)
    (w : World) (h : p.size_type = r._size_type)
    (hbig : intermediate_buffer_size env < target_buffer_offset env n + p.byte_count env) :
    r.memcopy_page_to_numa_node env p n w = .error .out_of_bounds := by
  simp [VolatileRegion.memcopy_page_to_numa_node, get_page_eq env r p h, bind, Except.bind,
    memcpy_to_buffer, hbig]


theorem memcpy_to_buffer_ok (env : Env) (w : World) (offset src len : Nat)
    (hfit : offset + len ≤ intermediate_buffer_size env)
    (hacc : range_accessible w src len = true) :
    ∃ w1, memcpy_to_buffer env w offset src len = .ok w1 ∧
      w1.memory = w.memory ∧ w1.accessible = w.accessible ∧
      w1.mprotect_ok = w.mprotect_ok ∧ w1.madvise_ok = w.madvise_ok ∧
      w1.mbind_ok = w.mbind_ok ∧
      (∀ k, k < len → w1.intermediate_buffer (offset + k) = w.memory (src + k)) := by
  have hfit2 : ¬ intermediate_buffer_size env < offset + len := by omega
  refine ⟨{ w with intermediate_buffer := fun o =>
      if offset ≤ o ∧ o < offset + len then w.memory (src + (o - offset))
      else w.intermediate_buffer o },
    by simp only [memcpy_to_buffer, hfit2, if_false, hacc, if_true], rfl, rfl, rfl, rfl, rfl, ?_⟩
  intro k hk
  show (if offset ≤ offset + k ∧ offset + k < offset + len then w.memory (src + (offset + k - offset))
      else w.intermediate_buffer (offset + k)) = _
  rw [if_pos ⟨by omega, by omega⟩]
  congr 1
  omega

theorem memcpy_from_buffer_ok (env : Env) (w : World) (dst offset len : Nat)
    (hfit : offset + len ≤ intermediate_buffer_size env)
    (hacc : range_accessible w dst len = true) :
    ∃ w1, memcpy_from_buffer env w dst offset len = .ok w1 ∧
      w1.accessible = w.accessible ∧
      (∀ k, k < len → w1.memory (dst + k) = w.intermediate_buffer (offset + k)) ∧
      (∀ a, (a < dst ∨ dst + len ≤ a) → w1.memory a = w.memory a) := by
  have hfit2 : ¬ intermediate_buffer_size env < offset + len := by omega
  refine ⟨{ w with memory := fun a =>
      if dst ≤ a ∧ a < dst + len then w.intermediate_buffer (offset + (a - dst))
      else w.memory a },
    by simp only [memcpy_from_buffer, hfit2, if_false, hacc, if_true], rfl, ?_, ?_⟩
  · intro k hk
    show (if dst ≤ dst + k ∧ dst + k < dst + len then w.intermediate_buffer (offset + (dst + k - dst))
      else w.memory (dst + k)) = _
    rw [if_pos ⟨by omega, by omega⟩]
    congr 1
    omega
  · intro a ha
    show (if dst ≤ a ∧ a < dst + len then w.intermediate_buffer (offset + (a - dst))
      else w.memory a) = _
    rw [if_neg (by omega)]

theorem memcpy_from_buffer_fault (env : Env) (w : World) (dst offset len : Nat)
    (hfit : offset + len ≤ intermediate_buffer_size env) (hpos : 0 < len)
    (hacc : w.accessible dst = false) :
    memcpy_from_buffer env w dst offset len = .error .segmentation_fault := by
  have hfit2 : ¬ intermediate_buffer_size env < offset + len := by omega
  have hna : ¬ range_accessible w dst len = true := by
    rw [range_accessible_iff]
    intro hall
    have := hall 0 hpos
    rw [Nat.add_zero, hacc] at this
    cases this
  simp [memcpy_from_buffer, hfit2, hna]

/-- The call `mbind_to_numa_node` inside `memcopy_page_to_numa_node` returns when NUMA
support is compiled out, or when the node is set, `mbind` succeeds and the page has a
frame. -/
theorem mbind_to_numa_node_ok (env : Env) (r : VolatileRegion) (p : PageID) (n : NodeID)
    (w : World) (h : p.size_type = r._size_type)
    (hnuma : env.HYRISE_NUMA_SUPPORT = false ∨
      (env.HYRISE_NUMA_SUPPORT = true ∧ n ≠ env.INVALID_NODE_ID ∧ w.mbind_ok = true ∧
        p.index < r._frames.length)) :
    ∃ r2, r.mbind_to_numa_node env p n w = .ok (r2, w) ∧
      r2._madvice_free_call_count = r._madvice_free_call_count ∧
      (env.HYRISE_NUMA_SUPPORT = false → r2 = r) ∧
      (env.HYRISE_NUMA_SUPPORT = true → r2._frames = r._frames.set p.index { node_id := n } ∧
        r2._numa_page_movement_count = r._numa_page_movement_count + 1) := by
  rcases hnuma with hn | ⟨hn, hv, hb, hi⟩
  · refine ⟨r, mbind_to_numa_node_without_numa env r p n w h hn, rfl, fun _ => rfl, fun hc => ?_⟩
    rw [hn] at hc
    cases hc
  · refine ⟨_, mbind_to_numa_node_with_numa env r p n w h hn hv hb hi, rfl, fun hc => ?_,
      fun _ => ⟨rfl, rfl⟩⟩
    rw [hn] at hc
    cases hc

/-- With memory protection compiled in, the copy back of `memcopy_page_to_numa_node` hits
the page that `free` has just protected. -/
theorem memcopy_segfault_with_mprotect (env : Env) (r : VolatileRegion) (p : PageID)
    (n : NodeID) (w : World) (h : p.size_type = r._size_type)
    (hm : env.ENABLE_MPROTECT = true)
    (hfit : target_buffer_offset env n + p.byte_count env ≤ intermediate_buffer_size env)
    (hacc : range_accessible w
      (r.page_address env p) (p.byte_count env) = true)
    (h1 : w.mprotect_ok = true) (h2 : w.madvise_ok = true)
    (hnuma : env.HYRISE_NUMA_SUPPORT = false ∨
      (env.HYRISE_NUMA_SUPPORT = true ∧ n ≠ env.INVALID_NODE_ID ∧ w.mbind_ok = true ∧
        p.index < r._frames.length))
    (hpos : 0 < p.byte_count env) :
    r.memcopy_page_to_numa_node env p n w = .error .segmentation_fault := by
  obtain ⟨w1, hw1, -, -, hp1, hd1, hb1, -⟩ := memcpy_to_buffer_ok env w _ _ _ hfit hacc
  have hfree := free_with_mprotect env r p w1 h hm (by rw [hp1]; exact h1) (by rw [hd1]; exact h2)
  obtain ⟨r2, hmb, -⟩ := mbind_to_numa_node_ok env
    { r with _madvice_free_call_count := r._madvice_free_call_count + 1 } p n
    { w1 with
        memory := fun a =>
          if r.page_address env p ≤ a ∧
             a < r.page_address env p + p.byte_count env
          then 0 else w1.memory a
        accessible := fun a =>
          if r.page_address env p ≤ a ∧
             a < r.page_address env p + p.byte_count env
          then false else w1.accessible a } h
    (by
      rcases hnuma with hn | ⟨hn, hv, hb, hi⟩
      · exact Or.inl hn
      · exact Or.inr ⟨hn, hv, by rw [← hb]; exact hb1, hi⟩)
  simp only [VolatileRegion.memcopy_page_to_numa_node, get_page_eq env r p h, bind, Except.bind,
    hw1, hfree, hmb]
  rw [memcpy_from_buffer_fault env _ _ _ _ hfit hpos]
  simp only [ite_eq_left_iff]
  intro hcon
  exact absurd ⟨Nat.le_refl _, by omega⟩ hcon

/-- Without memory protection `memcopy_page_to_numa_node` returns, has called `free` once
and has restored the bytes of the page. -/
theorem memcopy_without_mprotect (env : Env) (r : VolatileRegion) (p : PageID)
    (n : NodeID) (w : World) (h : p.size_type = r._size_type)
    (hm : env.ENABLE_MPROTECT = false)
    (hfit : target_buffer_offset env n + p.byte_count env ≤ intermediate_buffer_size env)
    (hacc : range_accessible w
      (r.page_address env p) (p.byte_count env) = true)
    (h2 : w.madvise_ok = true)
    (hnuma : env.HYRISE_NUMA_SUPPORT = false ∨
      (env.HYRISE_NUMA_SUPPORT = true ∧ n ≠ env.INVALID_NODE_ID ∧ w.mbind_ok = true ∧
        p.index < r._frames.length)) :
    ∃ r2 w2, r.memcopy_page_to_numa_node env p n w = .ok (r2, w2) ∧
      r2._madvice_free_call_count = r._madvice_free_call_count + 1 ∧
      (env.HYRISE_NUMA_SUPPORT = false → r2._frames = r._frames ∧
        r2._numa_page_movement_count = r._numa_page_movement_count) ∧
      (env.HYRISE_NUMA_SUPPORT = true → r2._frames = r._frames.set p.index { node_id := n } ∧
        r2._numa_page_movement_count = r._numa_page_movement_count + 1) ∧
      (∀ a, w2.memory a = w.memory a) ∧ w2.accessible = w.accessible := by
  obtain ⟨w1, hw1, hmem1, hacc1, -, hd1, hb1, hbuf1⟩ := memcpy_to_buffer_ok env w _ _ _ hfit hacc
  have hfree := free_without_mprotect env r p w1 h hm (by rw [hd1]; exact h2)
  obtain ⟨r2, hmb, hc2, hoff, hon⟩ := mbind_to_numa_node_ok env
    { r with _madvice_free_call_count := r._madvice_free_call_count + 1 } p n
    { w1 with
        memory := fun a =>
          if r.page_address env p ≤ a ∧
             a < r.page_address env p + p.byte_count env
          then 0 else w1.memory a } h
    (by
      rcases hnuma with hn | ⟨hn, hv, hb, hi⟩
      · exact Or.inl hn
      · exact Or.inr ⟨hn, hv, by rw [← hb]; exact hb1, hi⟩)
  obtain ⟨w4, hw4, hacc4, hin4, hout4⟩ := memcpy_from_buffer_ok env
    { w1 with
        memory := fun a =>
          if r.page_address env p ≤ a ∧
             a < r.page_address env p + p.byte_count env
          then 0 else w1.memory a }
    (r.page_address env p)
    (target_buffer_offset env n) (p.byte_count env) hfit
    (by
      rw [range_accessible_iff] at hacc ⊢
      intro k hk
      show w1.accessible _ = true
      rw [hacc1]
      exact hacc k hk)
  refine ⟨r2, w4, ?_, hc2, ?_, hon, ?_, ?_⟩
  · simp only [VolatileRegion.memcopy_page_to_numa_node, get_page_eq env r p h, bind, Except.bind,
      hw1, hfree, hmb, hw4, pure, Except.pure]
  · intro hn
    rw [hoff hn]
    exact ⟨rfl, rfl⟩
  · intro a
    by_cases hin : r.page_address env p ≤ a ∧
          a < r.page_address env p + p.byte_count env
    · have hk : a - (r.page_address env p) <
          p.byte_count env := by omega
      have e : a = r.page_address env p +
          (a - (r.page_address env p)) := by omega
      rw [e, hin4 _ hk]
      show w1.intermediate_buffer _ = _
      rw [hbuf1 _ hk]
    · rw [hout4 a (by omega)]
      show (if _ then 0 else w1.memory a) = _
      rw [if_neg hin, hmem1]
  · rw [hacc4]
    exact hacc1



theorem mprotect_ok_accessible (w : World) (addr len : Nat) (prot : Bool) (w2 : World)
    (h : mprotect w addr len prot = .ok w2) :
    ∀ k, k < len → w2.accessible (addr + k) = prot := by
  unfold mprotect at h
  cases hm : w.mprotect_ok
  · simp [hm] at h
  · simp only [hm, if_true, Except.ok.injEq] at h
    intro k hk
    rw [← h]
    show (if addr ≤ addr + k ∧ addr + k < addr + len then prot else w.accessible (addr + k)) = prot
    rw [if_pos ⟨by omega, by omega⟩]

/-- With memory protection compiled in, a page is inaccessible whenever `free` returns. -/
theorem free_ok_protects (env : Env) (r : VolatileRegion) (p : PageID) (w : World)
    (r2 : VolatileRegion) (w2 : World) (a : Nat)
    (hm : env.ENABLE_MPROTECT = true) (hg : r.get_page env p = .ok a)
    (h : r.free env p w = .ok (r2, w2)) :
    ∀ k, k < p.byte_count env → w2.accessible (a + k) = false := by
  unfold VolatileRegion.free at h
  cases hd : DebugAssert env (p.size_type == r._size_type) with
  | error err => simp [hd, bind, Except.bind] at h
  | ok u =>
    simp only [hd, hg, bind, Except.bind] at h
    cases h1 : r._unprotect_page env p w with
    | error err => simp [h1] at h
    | ok w1 =>
      simp only [h1] at h
      cases h2 : madvise w1 a (p.byte_count env) with
      | error err => simp [h2] at h
      | ok w3 =>
        simp only [h2] at h
        cases h3 : r._protect_page env p w3 with
        | error err => simp [h3] at h
        | ok w4 =>
          simp only [h3, pure, Except.pure, Except.ok.injEq, Prod.mk.injEq] at h
          rw [← h.2]
          simp only [VolatileRegion._protect_page, hm, if_true, hd, hg, bind, Except.bind] at h3
          exact mprotect_ok_accessible w3 a _ false w4 h3

/-- With memory protection compiled in, `memcopy_page_to_numa_node` never returns for a page
of positive size, whatever the region, the node, the memory and the OS do. -/
theorem memcopy_never_returns_with_mprotect (env : Env) (r : VolatileRegion) (p : PageID)
    (n : NodeID) (w : World) (hm : env.ENABLE_MPROTECT = true) (hpos : 0 < p.byte_count env) :
    ∀ res, r.memcopy_page_to_numa_node env p n w ≠ .ok res := by
  intro res h
  unfold VolatileRegion.memcopy_page_to_numa_node at h
  cases hg : r.get_page env p with
  | error err => simp [hg, bind, Except.bind] at h
  | ok a =>
    simp only [hg, bind, Except.bind] at h
    cases h1 : memcpy_to_buffer env w (target_buffer_offset env n) a (p.byte_count env) with
    | error err => simp [h1] at h
    | ok w1 =>
      simp only [h1] at h
      cases h2 : r.free env p w1 with
      | error err => simp [h2] at h
      | ok res2 =>
        obtain ⟨r1, w2⟩ := res2
        simp only [h2] at h
        cases h3 : r1.mbind_to_numa_node env p n w2 with
        | error err => simp [h3] at h
        | ok res3 =>
          obtain ⟨r2, w3⟩ := res3
          simp only [h3] at h
          have hw3 : w3 = w2 := mbind_to_numa_node_world env r1 p n w2 r2 w3 h3
          have hacc := free_ok_protects env r p w1 r1 w2 a hm hg h2 0 hpos
          rw [Nat.add_zero] at hacc
          by_cases hfit : target_buffer_offset env n + p.byte_count env ≤ intermediate_buffer_size env
          · rw [memcpy_from_buffer_fault env w3 a _ _ hfit hpos (by rw [hw3]; exact hacc)] at h
            simp at h
          · have hbig : intermediate_buffer_size env <
                target_buffer_offset env n + p.byte_count env := by omega
            simp [memcpy_from_buffer, hbig] at h

theorem fill_pages_to_move_short_nodes (env : Env) (r : VolatileRegion) (p : PageID) (n : NodeID)
    (h : p.size_type = r._size_type) (m : Nat) (pages : List Nat) (x : Nat) :
    r.fill_pages_to_move env p n (m + 2) 0 pages [x] = .error .out_of_bounds := by
  by_cases hp : 0 < pages.length
  · simp [VolatileRegion.fill_pages_to_move, get_page_eq env r p h, bind, Except.bind, hp]
  · simp [VolatileRegion.fill_pages_to_move, get_page_eq env r p h, bind, Except.bind, hp]

/-- The first call of `move_page_to_numa_node` on a thread, for a page of two or more OS
pages, stores past the end of the one-element vector `nodes`. -/
theorem move_page_to_numa_node_first_call (env : Env) (r : VolatileRegion) (p : PageID)
    (n : NodeID) (w : World) (h : p.size_type = r._size_type)
    (hn : env.HYRISE_NUMA_SUPPORT = true) (hv : n ≠ env.INVALID_NODE_ID)
    (hos : env.OS_PAGE_SIZE ≠ 0)
    (hfirst : w.pages_to_move = none ∧ w.nodes = none)
    (hbig : 2 ≤ env.bytes_for_size_type r._size_type / env.OS_PAGE_SIZE) :
    r.move_page_to_numa_node env p n w = .error .out_of_bounds := by
  obtain ⟨m, hm⟩ : ∃ m, env.bytes_for_size_type r._size_type / env.OS_PAGE_SIZE = m + 2 :=
    ⟨env.bytes_for_size_type r._size_type / env.OS_PAGE_SIZE - 2, by omega⟩
  simp [VolatileRegion.move_page_to_numa_node, DebugAssert, h, hn, hv, hos, bind, Except.bind,
    hfirst.1, hfirst.2, hm, fill_pages_to_move_short_nodes env r p n h]

/-- A staging range of a node below `num_numa_nodes` lies inside the intermediate buffer,
and the staging ranges of two different nodes do not overlap, for pages that are not
larger than the largest page. -/
theorem staging_range_inside (env : Env) (p : PageID) (n m : Nat)
    (hle : p.byte_count env ≤ env.bytes_for_size_type env.MAX_PAGE_SIZE_TYPE) :
    (n < num_numa_nodes → target_buffer_offset env n + p.byte_count env ≤ intermediate_buffer_size env) ∧
    (n < m → target_buffer_offset env n + p.byte_count env ≤ target_buffer_offset env m) := by
  refine ⟨?_, ?_⟩
  · intro hn
    have h1 : (n + 1) * env.bytes_for_size_type env.MAX_PAGE_SIZE_TYPE ≤
        num_numa_nodes * env.bytes_for_size_type env.MAX_PAGE_SIZE_TYPE :=
      Nat.mul_le_mul_right _ hn
    rw [Nat.succ_mul] at h1
    simp only [target_buffer_offset, intermediate_buffer_size]
    omega
  · intro hnm
    have h1 : (n + 1) * env.bytes_for_size_type env.MAX_PAGE_SIZE_TYPE ≤
        m * env.bytes_for_size_type env.MAX_PAGE_SIZE_TYPE :=
      Nat.mul_le_mul_right _ hnm
    rw [Nat.succ_mul] at h1
    simp only [target_buffer_offset]
    omega



theorem fresh_world_accessible (addr len : Nat) : range_accessible fresh_world addr len = true := by
  rw [range_accessible_iff]
  intro k _
  rfl

theorem scenario_region_slots : scenario_region._frames.length = 128 := by
  simp [scenario_region]

/-- Claim C1, amended: for a page id of the region's size class `get_page` returns
`start + index * bytes_for_size_type(size_type)` modulo `2 ^ 64`, which is exactly
`start + index * bytes_for_size_type(size_type)` when that address lies in the 64-bit
address space, as it does for every page id that names a slot of the region; the result is
the same for every region with the same start and size class and every page id with the
same size class and index. -/
theorem get_page_address (env : Env) (r : VolatileRegion) (p : PageID)
    (h : p.size_type = r.size_type) :
    r.get_page env p = .ok
      ((r._region_start + p.index * env.bytes_for_size_type r.size_type) %
        18446744073709551616) ∧
    (r._region_start + p.index * env.bytes_for_size_type r.size_type < 18446744073709551616 →
      r.get_page env p =
        .ok (r._region_start + p.index * env.bytes_for_size_type r.size_type)) ∧
    (∀ (r2 : VolatileRegion) (p2 : PageID), r2._region_start = r._region_start →
      r2.size_type = r.size_type → p2.size_type = p.size_type → p2.index = p.index →
      r2.get_page env p2 = r.get_page env p) := by
  have h' : p.size_type = r._size_type := h
  refine ⟨?_, ?_, ?_⟩
  · rw [get_page_eq env r p h', page_address_mod]
    rfl
  · intro hlt
    rw [get_page_eq env r p h', page_address_of_lt env r p hlt]
    rfl
  · intro r2 p2 hs ht hp hi
    have ht' : r2._size_type = r._size_type := ht
    rw [get_page_eq env r p h', get_page_eq env r2 p2 (by rw [hp, h', ht']),
      page_address_mod, page_address_mod, hs, ht', hi]

/-- Slot 3 of the first scenario region is at `65536 + 3 * 4096`. -/
theorem get_page_address_witness :
    scenario_region.get_page (scenario_env true true true) { size_type := 0, index := 3 } =
      .ok 77824 :=
  (get_page_address (scenario_env true true true) scenario_region { size_type := 0, index := 3 }
    rfl).2.1 (by decide)

/-- Claim C1 as stated fails: for the page id of size class 0 and index `2 ^ 52` on the first
scenario region, `index * 4096` is `2 ^ 64`, so `get_page` returns the region start 65536
and not `65536 + 2 ^ 52 * 4096`. -/
theorem get_page_address_wraps :
    ({ size_type := 0, index := 4503599627370496 } : PageID).size_type =
      scenario_region.size_type ∧
    scenario_region.get_page (scenario_env true true true)
      { size_type := 0, index := 4503599627370496 } = .ok 65536 ∧
    scenario_region._region_start + 4503599627370496 *
      (scenario_env true true true).bytes_for_size_type scenario_region.size_type =
        18446744073709617152 ∧
    scenario_region.get_page (scenario_env true true true)
      { size_type := 0, index := 4503599627370496 } ≠
      .ok (scenario_region._region_start + 4503599627370496 *
        (scenario_env true true true).bytes_for_size_type scenario_region.size_type) := by
  have hg := get_page_eq (scenario_env true true true) scenario_region
    { size_type := 0, index := 4503599627370496 } rfl
  have hv : scenario_region.page_address (scenario_env true true true)
      { size_type := 0, index := 4503599627370496 } = 65536 := by decide
  rw [hv] at hg
  refine ⟨rfl, hg, by decide, ?_⟩
  rw [hg]
  intro hcon
  have h2 := Except.ok.inj hcon
  revert h2
  decide

/-- An empty interval is refused, and the first slice of the scenario gives 128 slots. -/
theorem construct_fails_iff_witness :
    (∃ err, VolatileRegion.construct (scenario_env true true true) 0 65536 65536 fresh_world =
      .error err) ∧
    (∃ r w2, VolatileRegion.construct (scenario_env true true true) 0 65536 589824 fresh_world =
      .ok (r, w2) ∧ r.size = 128) := by
  refine ⟨?_, ?_⟩
  · exact (construct_fails_iff (scenario_env true true true) 0 65536 65536 fresh_world
      rfl).1.mpr (Or.inl (Nat.le_refl _))
  · obtain ⟨r, w2, h, hs, -⟩ := (construct_fails_iff (scenario_env true true true) 0 65536 589824
      fresh_world rfl).2 (by decide)
    exact ⟨r, w2, h, by rw [hs]; decide⟩

/-- Claim C9 as stated fails: with debug assertions and memory protection compiled in, the
interval `[65536, 589824)` holds 128 slots of 4 KiB, so it is neither degenerate nor too
small, yet construction fails when the `mprotect` of the interval fails. -/
theorem construct_fails_on_mprotect_error :
    (scenario_env true true true).HYRISE_DEBUG = true ∧
    ¬ (589824 ≤ 65536 ∨ (589824 - 65536) / (scenario_env true true true).bytes_for_size_type 0 = 0) ∧
    (589824 - 65536) / (scenario_env true true true).bytes_for_size_type 0 = 128 ∧
    VolatileRegion.construct (scenario_env true true true) 0 65536 589824 mprotect_failing_world =
      .error .os_call_failed := by
  refine ⟨rfl, by decide, by decide, ?_⟩
  exact construct_mprotect_fails (scenario_env true true true) 0 65536 589824
    mprotect_failing_world (by decide) (fun _ => by decide) rfl rfl

/-- The first scenario region: its last byte is inaccessible after construction, and
freeing slot 3 protects slot 3 and leaves the last byte of slot 2 accessible. -/
theorem protection_invariant_witness :
    (∃ r w2, VolatileRegion.construct (scenario_env true true true) 0 65536 589824 fresh_world =
        .ok (r, w2) ∧ w2.accessible (65536 + 127 * 4096 + 4095) = false) ∧
    (∃ r2 w2, scenario_region.free (scenario_env true true true) { size_type := 0, index := 3 }
        fresh_world = .ok (r2, w2) ∧
      w2.accessible (65536 + 3 * 4096) = false ∧
      w2.accessible (65536 + 2 * 4096 + 4095) = true ∧
      r2.madvice_free_call_count = 1) := by
  have key := protection_invariant (scenario_env true true true) rfl
  refine ⟨?_, ?_⟩
  · obtain ⟨r, w2, h⟩ := key.2.1 0 65536 589824 fresh_world rfl (by decide) (by decide)
    obtain ⟨hr, -⟩ := construct_ok_fields _ _ _ _ _ r w2 h
    have hs : r.size = 128 := by
      rw [hr]
      simp only [VolatileRegion.size, List.length_replicate]
      decide
    exact ⟨r, w2, h, (key.1 0 65536 589824 fresh_world r w2 h).1 127 (by rw [hs]; decide) 4095
      (by decide)⟩
  · obtain ⟨a, r2, w2, -, h, -, -, hslots, hc, -⟩ := key.2.2 scenario_region
      { size_type := 0, index := 3 } fresh_world rfl rfl rfl
    obtain ⟨-, hin, hout⟩ := hslots (by decide)
    refine ⟨r2, w2, h, hin 0 (by decide), ?_, hc⟩
    have := hout 2 (by decide) 4095 (by decide)
    exact this

/-- Claim C2 at its failing inputs, with NUMA support compiled in and every OS call
succeeding: `memcopy_page_to_numa_node` to node 4 copies past the intermediate buffer;
with memory protection it faults on the copy back; `move_page_to_numa_node` for a page of
two OS pages stores past its vector `nodes`; `mbind_to_numa_node` to node 4 records the node
and counts one movement. -/
theorem migration_operations_diverge :
    scenario_region.memcopy_page_to_numa_node (scenario_env true true false)
        { size_type := 0, index := 0 } 4 fresh_world = .error .out_of_bounds ∧
    scenario_region.memcopy_page_to_numa_node (scenario_env true true true)
        { size_type := 0, index := 0 } 1 fresh_world = .error .segmentation_fault ∧
    scenario_region_large.move_page_to_numa_node (scenario_env true true false)
        { size_type := 1, index := 0 } 1 fresh_world = .error .out_of_bounds ∧
    (∃ r2, scenario_region.mbind_to_numa_node (scenario_env true true false)
        { size_type := 0, index := 0 } 4 fresh_world = .ok (r2, fresh_world) ∧
      r2._frames[0]? = some { node_id := 4 } ∧
      r2.numa_page_movement_count = scenario_region.numa_page_movement_count + 1) := by
  refine ⟨?_, ?_, ?_, ?_⟩
  · exact memcopy_out_of_bounds _ _ _ _ _ rfl (by decide)
  · exact memcopy_segfault_with_mprotect _ _ _ _ _ rfl rfl (by decide)
      (fresh_world_accessible _ _) rfl rfl
      (Or.inr ⟨rfl, by decide, rfl, by rw [scenario_region_slots]; decide⟩) (by decide)
  · exact move_page_to_numa_node_first_call _ _ _ _ _ rfl rfl (by decide) (by decide)
      ⟨rfl, rfl⟩ (by decide)
  · refine ⟨_, mbind_to_numa_node_with_numa _ _ _ _ _ rfl rfl (by decide) rfl
      (by rw [scenario_region_slots]; decide), ?_, rfl⟩
    exact List.getElem?_set_self (by rw [scenario_region_slots]; decide)

/-- Claim C6 at its failing input, with NUMA support compiled out:
`memcopy_page_to_numa_node` returns with `madvice_free_call_count()` raised from 0 to 1,
while `mbind_to_numa_node` and `move_page_to_numa_node` leave region and world unchanged. -/
theorem memcopy_without_numa_calls_free :
    (∃ r2 w2, scenario_region.memcopy_page_to_numa_node (scenario_env true false false)
        { size_type := 0, index := 0 } 1 fresh_world = .ok (r2, w2) ∧
      scenario_region.madvice_free_call_count = 0 ∧ r2.madvice_free_call_count = 1) ∧
    scenario_region.mbind_to_numa_node (scenario_env true false false)
        { size_type := 0, index := 0 } 1 fresh_world = .ok (scenario_region, fresh_world) ∧
    scenario_region.move_page_to_numa_node (scenario_env true false false)
        { size_type := 0, index := 0 } 1 fresh_world = .ok (scenario_region, fresh_world) := by
  refine ⟨?_, mbind_to_numa_node_without_numa _ _ _ _ _ rfl rfl,
    move_page_to_numa_node_without_numa _ _ _ _ _ rfl rfl⟩
  obtain ⟨r2, w2, h, hc, -⟩ := memcopy_without_mprotect (scenario_env true false false)
    scenario_region { size_type := 0, index := 0 } 1 fresh_world rfl rfl (by decide)
    (fresh_world_accessible _ _) rfl (Or.inl rfl)
  exact ⟨r2, w2, h, rfl, hc⟩

/-- Claim C7 at its failing input, with memory protection compiled in: the page is
accessible when the call starts and the staging range of node 0 lies inside the
intermediate buffer, yet `memcopy_page_to_numa_node` faults on the copy back. -/
theorem memcopy_faults_under_mprotect :
    range_accessible fresh_world 65536 4096 = true ∧
    target_buffer_offset (scenario_env true false true) 0 + 4096 ≤
      intermediate_buffer_size (scenario_env true false true) ∧
    scenario_region.memcopy_page_to_numa_node (scenario_env true false true)
      { size_type := 0, index := 0 } 0 fresh_world = .error .segmentation_fault := by
  refine ⟨fresh_world_accessible _ _, by decide, ?_⟩
  exact memcopy_segfault_with_mprotect _ _ _ _ _ rfl rfl (by decide)
    (fresh_world_accessible _ _) rfl rfl (Or.inl rfl) (by decide)

/-- Claim C10 at its failing input: the intermediate buffer has 32768 bytes, the staging
range of node 4 starts at offset 32768, and `memcopy_page_to_numa_node` to node 4 copies out
of bounds. -/
theorem staging_range_past_buffer :
    intermediate_buffer_size (scenario_env false true false) = 32768 ∧
    target_buffer_offset (scenario_env false true false) 4 = 32768 ∧
    scenario_region_large.memcopy_page_to_numa_node (scenario_env false true false)
      { size_type := 1, index := 0 } 4 fresh_world = .error .out_of_bounds := by
  refine ⟨by decide, by decide, ?_⟩
  exact memcopy_out_of_bounds _ _ _ _ _ rfl (by decide)

/-- A call of `move_page_to_numa_node` on a thread whose three vectors hold one entry each
hands a request of one entry to `move_pages`, whatever the size class of the region. -/
theorem move_page_to_numa_node_single_entry (env : Env) (r : VolatileRegion) (p : PageID)
    (n : NodeID) (w : World) (a b c : Nat) (h : p.size_type = r._size_type)
    (hn : env.HYRISE_NUMA_SUPPORT = true) (hv : n ≠ env.INVALID_NODE_ID)
    (hos : env.OS_PAGE_SIZE ≠ 0) (hok : w.move_pages_ok = true)
    (hi : p.index < r._frames.length)
    (hp : w.pages_to_move = some [a]) (hnodes : w.nodes = some [b]) (hs : w.status = some [c]) :
    r.move_page_to_numa_node env p n w = .ok
      ({ r with _numa_page_movement_count := r._numa_page_movement_count + 1,
                _frames := r._frames.set p.index { node_id := n } },
       { w with
          pages_to_move := some [r.page_address env p]
          nodes := some [n]
          status := some [n] }) := by
  simp [VolatileRegion.move_page_to_numa_node, DebugAssert, h, hn, hv, hos, bind, Except.bind,
    hp, hnodes, hs, VolatileRegion.fill_pages_to_move, get_page_eq env r p h, move_pages, hok,
    set_frame_node_id_of_lt _ _ _ hi, pure, Except.pure]

/-- The first call of `move_page_to_numa_node` on a thread, for a page of exactly one OS
page, creates three vectors of one entry each and hands a request of one entry to
`move_pages`. -/
theorem move_page_to_numa_node_first_call_single (env : Env) (r : VolatileRegion) (p : PageID)
    (n : NodeID) (w : World) (h : p.size_type = r._size_type)
    (hn : env.HYRISE_NUMA_SUPPORT = true) (hv : n ≠ env.INVALID_NODE_ID)
    (hos : env.OS_PAGE_SIZE ≠ 0) (hok : w.move_pages_ok = true)
    (hi : p.index < r._frames.length)
    (hfirst : w.pages_to_move = none ∧ w.nodes = none ∧ w.status = none)
    (hone : env.bytes_for_size_type r._size_type / env.OS_PAGE_SIZE = 1) :
    r.move_page_to_numa_node env p n w = .ok
      ({ r with _numa_page_movement_count := r._numa_page_movement_count + 1,
                _frames := r._frames.set p.index { node_id := n } },
       { w with
          pages_to_move := some [r.page_address env p]
          nodes := some [n]
          status := some [n] }) := by
  simp [VolatileRegion.move_page_to_numa_node, DebugAssert, h, hn, hv, hos, bind, Except.bind,
    hfirst.1, hfirst.2.1, hfirst.2.2, hone, VolatileRegion.fill_pages_to_move,
    get_page_eq env r p h, move_pages, hok, set_frame_node_id_of_lt _ _ _ hi, pure, Except.pure]

/-- The fill loop of `move_page_to_numa_node` on vectors where `nodes` is at least as long as
`pages_to_move`: it returns, keeps both lengths, and stores the address of OS page `j` of
the slot and the target node at every index `j` from its start index on. -/
theorem fill_pages_to_move_ok (env : Env) (r : VolatileRegion) (p : PageID) (n : NodeID)
    (h : p.size_type = r._size_type) :
    ∀ (remaining i : Nat) (pages nodes : List Nat), i + remaining = pages.length →
      pages.length ≤ nodes.length →
      ∃ pages2 nodes2, r.fill_pages_to_move env p n remaining i pages nodes = .ok (pages2, nodes2) ∧
        pages2.length = pages.length ∧ nodes2.length = nodes.length ∧
        (∀ j, i ≤ j → j < pages.length →
          pages2[j]? = some (r.page_address env p +
            j * env.OS_PAGE_SIZE) ∧ nodes2[j]? = some n) ∧
        (∀ j, j < i → pages2[j]? = pages[j]? ∧ nodes2[j]? = nodes[j]?) := by
  intro remaining
  induction remaining with
  | zero =>
    intro i pages nodes hlen _
    refine ⟨pages, nodes, rfl, rfl, rfl, ?_, fun j _ => ⟨rfl, rfl⟩⟩
    intro j hij hj
    omega
  | succ m ih =>
    intro i pages nodes hlen hle
    have hi1 : i < pages.length := by omega
    have hi2 : i < nodes.length := by omega
    obtain ⟨pages2, nodes2, hrun, hl1, hl2, hset, hkeep⟩ := ih (i + 1)
      (pages.set i (r.page_address env p +
        i * env.OS_PAGE_SIZE)) (nodes.set i n)
      (by rw [List.length_set]; omega) (by rw [List.length_set, List.length_set]; exact hle)
    refine ⟨pages2, nodes2, ?_, ?_, ?_, ?_, ?_⟩
    · simp only [VolatileRegion.fill_pages_to_move, get_page_eq env r p h, bind, Except.bind,
        hi1, hi2, and_self, if_true]
      exact hrun
    · rw [hl1, List.length_set]
    · rw [hl2, List.length_set]
    · intro j hij hj
      by_cases hji : j = i
      · subst hji
        obtain ⟨k1, k2⟩ := hkeep j (Nat.lt_succ_self j)
        rw [k1, k2]
        exact ⟨List.getElem?_set_self hi1, List.getElem?_set_self hi2⟩
      · exact hset j (by omega) (by rw [List.length_set]; exact hj)
    · intro j hji
      obtain ⟨k1, k2⟩ := hkeep j (by omega)
      rw [k1, k2]
      exact ⟨List.getElem?_set_ne (by omega), List.getElem?_set_ne (by omega)⟩

/-- A call of `move_page_to_numa_node` on a thread whose vectors exist already, with `nodes`
and `status` at least as long as `pages_to_move`: the request handed to `move_pages` has
as many entries as `pages_to_move` had before the call, whatever the size class of the
region is. -/
theorem move_page_to_numa_node_request (env : Env) (r : VolatileRegion) (p : PageID)
    (n : NodeID) (w : World) (pages nodes status : List Nat) (h : p.size_type = r._size_type)
    (hn : env.HYRISE_NUMA_SUPPORT = true) (hv : n ≠ env.INVALID_NODE_ID)
    (hos : env.OS_PAGE_SIZE ≠ 0) (hok : w.move_pages_ok = true)
    (hi : p.index < r._frames.length)
    (hp : w.pages_to_move = some pages) (hnodes : w.nodes = some nodes)
    (hs : w.status = some status)
    (hle1 : pages.length ≤ nodes.length) (hle2 : pages.length ≤ status.length) :
    ∃ r2 w2 pages2 nodes2, r.move_page_to_numa_node env p n w = .ok (r2, w2) ∧
      w2.pages_to_move = some pages2 ∧ w2.nodes = some nodes2 ∧
      pages2.length = pages.length ∧ nodes2.length = nodes.length ∧
      (∀ j, j < pages.length →
        pages2[j]? = some (r.page_address env p +
          j * env.OS_PAGE_SIZE) ∧ nodes2[j]? = some n) ∧
      r2._frames = r._frames.set p.index { node_id := n } ∧
      r2._numa_page_movement_count = r._numa_page_movement_count + 1 := by
  obtain ⟨pages2, nodes2, hrun, hl1, hl2, hset, -⟩ := fill_pages_to_move_ok env r p n h
    pages.length 0 pages nodes (by omega) hle1
  have hmp : ¬ (nodes2.length < pages2.length ∨ status.length < pages2.length) := by
    rw [hl1, hl2]
    omega
  refine ⟨{ r with _numa_page_movement_count := r._numa_page_movement_count + 1,
                     _frames := r._frames.set p.index { node_id := n } },
    { w with pages_to_move := some pages2, nodes := some nodes2,
             status := some (nodes2.take pages2.length ++ status.drop pages2.length) },
    pages2, nodes2, ?_, rfl, rfl, hl1, hl2, fun j hj => hset j (Nat.zero_le j) hj, rfl, rfl⟩
  simp [VolatileRegion.move_page_to_numa_node, DebugAssert, h, hn, hv, hos, bind, Except.bind,
    hp, hnodes, hs, hrun, move_pages, hmp, hok, set_frame_node_id_of_lt _ _ _ hi, pure,
    Except.pure]

theorem scenario_region_large_slots : scenario_region_large._frames.length = 64 := by
  simp [scenario_region_large]

/-- Claim C11 at its failing inputs, with NUMA support compiled in and every OS call
succeeding. A thread calls `move_page_to_numa_node` first on the region of 4 KiB pages and
then on the region of 8 KiB pages: the second call returns, although a slot of 8 KiB has
two OS pages its request to `move_pages` has the one entry `589824`, and all three vectors
have length one. A thread whose first call is on the region of 8 KiB pages stores past the
end of `nodes`. -/
theorem move_pages_request_keeps_first_length :
    (∃ r1 w1 r2 w2,
      scenario_region.move_page_to_numa_node (scenario_env true true false)
        { size_type := 0, index := 0 } 1 fresh_world = .ok (r1, w1) ∧
      w1.pages_to_move = some [65536] ∧ w1.nodes = some [1] ∧ w1.status = some [1] ∧
      scenario_region_large.move_page_to_numa_node (scenario_env true true false)
        { size_type := 1, index := 0 } 1 w1 = .ok (r2, w2) ∧
      (scenario_env true true false).bytes_for_size_type scenario_region_large.size_type /
        (scenario_env true true false).OS_PAGE_SIZE = 2 ∧
      w2.pages_to_move = some [589824] ∧ w2.nodes = some [1] ∧ w2.status = some [1] ∧
      r2._frames[0]? = some { node_id := 1 } ∧ r2.numa_page_movement_count = 1) ∧
    scenario_region_large.move_page_to_numa_node (scenario_env true true false)
      { size_type := 1, index := 5 } 0 fresh_world = .error .out_of_bounds := by
  have h1 := move_page_to_numa_node_first_call_single (scenario_env true true false)
    scenario_region { size_type := 0, index := 0 } 1 fresh_world rfl rfl (by decide) (by decide)
    rfl (by rw [scenario_region_slots]; decide) ⟨rfl, rfl, rfl⟩ (by decide)
  have h2 := move_page_to_numa_node_single_entry (scenario_env true true false)
    scenario_region_large { size_type := 1, index := 0 } 1
    { fresh_world with pages_to_move := some [65536], nodes := some [1], status := some [1] }
    65536 1 1 rfl rfl (by decide) (by decide) rfl
    (by rw [scenario_region_large_slots]; decide) rfl rfl rfl
  refine ⟨⟨_, _, _, _, h1, rfl, rfl, rfl, h2, by decide, rfl, rfl, rfl, ?_, rfl⟩, ?_⟩
  · exact List.getElem?_set_self (by rw [scenario_region_large_slots]; decide)
  · exact move_page_to_numa_node_first_call _ _ _ _ _ rfl rfl (by decide) (by decide)
      ⟨rfl, rfl⟩ (by decide)

end hyrise
